import Mathlib

/-!
# Session bootstrap of `pkg/vsphere/session`

A shallow embedding of `session.go`: the `Config` value, its `HasCertificate`
predicate and the `Create` function, which parses the SDK URL, connects,
optionally reconnects with a certificate, optionally wires keep-alive, logs in
and resolves datacenter, cluster, datastore, host, network and pool.

`Create` only orchestrates functions of other packages (govmomi, `crypto/tls`,
`net/url`, juju `errors`).  Those functions are taken as parameters: the record
`Collab W` holds one function per callee, each remote or file-system call
threading an arbitrary world state `W`, so that a theorem quantified over
`Collab W`, `W` and the start state holds for every behaviour of the callees.
`Create` records every call it makes, with its arguments, its result and the
world state after it, in a trace.

Conventions of the embedding:
* a Go result pair `(value, error)` is an `Except`: a callee that returns a
  non-nil error returns a nil value with it (what govmomi's finder and clients
  do), and a nil error comes with a valid value.  `soap.ParseURL` is the one
  callee whose value may be nil with a nil error (it is for the empty string),
  so its value is an `Option`;
* the callees change the world state only: they leave the fields of the client
  value they are handed (its transport, its API type) as they are;
* `ctx` is always `context.Background()` and is left out of the calls.
-/

namespace VSphereSession

/-- Dynamic type of a Go `error` value, as far as `Create` can tell types apart. -/
inductive ErrorType
  /-- The type `*find.NotFoundError`. -/
  | NotFoundError
  /-- The type `*find.MultipleFoundError`. -/
  | MultipleFoundError
  /-- The type `*find.DefaultNotFoundError`. -/
  | DefaultNotFoundError
  /-- The type `*find.DefaultMultipleFoundError`. -/
  | DefaultMultipleFoundError
  /-- The type `*errors.Err`, what juju `errors.Errorf` builds. -/
  | Err
  /-- Any other error type. -/
  | other
  deriving DecidableEq, Repr

/-- A non-nil Go `error`: its dynamic type and the text `Error()` returns. -/
structure GoError where
  dynType : ErrorType
  msg : String
  deriving DecidableEq, Repr

/-- The method `Error()` of the `error` interface. -/
def GoError.Error (e : GoError) : String := e.msg

/-- The type assertion `err.(*find.DefaultMultipleFoundError)`: its `ok` result. -/
def GoError.isDefaultMultipleFound (e : GoError) : Bool :=
  e.dynType == ErrorType.DefaultMultipleFoundError

/-- The error built by juju `errors.Errorf` once the format has been expanded
to `message`. -/
def Errorf (message : String) : GoError := ⟨ErrorType.Err, message⟩

/-- The type `time.Duration`: a signed count of nanoseconds. -/
abbrev Duration := Int

/-- The type `url.Userinfo`. -/
structure Userinfo where
  username : String
  password : String
  passwordSet : Bool
  deriving DecidableEq, Repr

/-- Modelled from the spec: `(*url.Userinfo).Username` of `net/url`, which is
not part of the repository; the extracted username if any, the empty string
for a nil receiver. -/
def Userinfo.Username : Option Userinfo → String
  | none => ""
  | some u => u.username

/-- The type `url.URL`. -/
structure URL where
  Scheme : String := ""
  Opaque : String := ""
  User : Option Userinfo := none
  Host : String := ""
  Path : String := ""
  RawQuery : String := ""
  Fragment : String := ""
  deriving DecidableEq, Repr

/-- The interface `soap.RoundTripper`: an opaque transport handle. -/
structure RoundTripper where
  handle : Nat
  deriving DecidableEq, Repr

/-- The type `tls.Certificate`: an opaque handle of a loaded key pair. -/
structure Certificate where
  handle : Nat
  deriving DecidableEq, Repr

/-- The connection `*govmomi.Client` with the promoted fields `Create` uses:
the transport `RoundTripper` of the embedded `*vim25.Client`, and the result of
its method `IsVC()`, fixed by the service content read at connect time. -/
structure Client where
  RoundTripper : RoundTripper
  IsVC : Bool
  deriving DecidableEq, Repr

/-- The type `*object.Datacenter`. -/
structure Datacenter where
  ref : String
  deriving DecidableEq, Repr

/-- The type `*object.ComputeResource`. -/
structure ComputeResource where
  ref : String
  deriving DecidableEq, Repr

/-- The type `*object.Datastore`. -/
structure Datastore where
  ref : String
  deriving DecidableEq, Repr

/-- The type `*object.HostSystem`. -/
structure HostSystem where
  ref : String
  deriving DecidableEq, Repr

/-- The interface `object.NetworkReference`. -/
structure NetworkReference where
  ref : String
  deriving DecidableEq, Repr

/-- The type `*object.ResourcePool`. -/
structure ResourcePool where
  ref : String
  deriving DecidableEq, Repr

/-- Modelled from the spec: the resolver `*find.Finder` of govmomi, which is
not part of the repository; it holds the connection it queries and its working
datacenter, unset until bound. -/
structure Finder where
  client : Client
  all : Bool
  dc : Option Datacenter
  deriving DecidableEq, Repr

/-- Modelled from the spec: `find.NewFinder`, a resolver without a working
datacenter. -/
def NewFinder (client : Client) (all : Bool) : Finder := ⟨client, all, none⟩

/-- Modelled from the spec: `(*find.Finder).SetDatacenter`, which sets the
resolver's working datacenter to the given one. -/
def Finder.SetDatacenter (f : Finder) (dc : Datacenter) : Finder :=
  { f with dc := some dc }

/-- Config contains the configuration used to create a Session. -/
structure Config where
  Service : String
  Insecure : Bool
  Keepalive : Duration
  Cluster : String
  Datacenter : String
  Datastore : String
  Host : String
  Network : String
  Pool : String
  CertFile : String
  KeyFile : String
  deriving DecidableEq, Repr

/-- HasCertificate checks for presence of a certificate and keyfile.  The
method has a pointer receiver: the second component is the `Config` the
receiver points to after the call. -/
def Config.HasCertificate (c : Config) : Bool × Config :=
  (c.CertFile != "" && c.KeyFile != "", c)

/-- Session caches vSphere objects obtained by querying the SDK.  Every field
is a pointer or an interface, `none` being nil. -/
structure Session where
  Client : Option Client := none
  Cluster : Option ComputeResource := none
  Datacenter : Option Datacenter := none
  Datastore : Option Datastore := none
  Host : Option HostSystem := none
  Network : Option NetworkReference := none
  Pool : Option ResourcePool := none
  deriving DecidableEq, Repr

/-- The functions of other packages that `Create` calls, over a world state
`W` (server, network and file system). -/
structure Collab (W : Type) where
  /-- The callee `soap.ParseURL`. -/
  ParseURL : String → Except GoError (Option URL)
  /-- The callee `(*url.URL).String`. -/
  URLString : URL → String
  /-- The callee `govmomi.NewClient`. -/
  NewClient : W → URL → Bool → Except GoError Client × W
  /-- The callee `tls.LoadX509KeyPair`. -/
  LoadX509KeyPair : W → String → String → Except GoError Certificate × W
  /-- The callee `govmomi.NewClientWithCertificate`. -/
  NewClientWithCertificate : W → URL → Bool → Certificate → Except GoError Client × W
  /-- The callee `session.KeepAlive`. -/
  KeepAlive : RoundTripper → Duration → RoundTripper
  /-- The callee `(*govmomi.Client).Login`; `none` is a nil error. -/
  Login : W → Client → Option Userinfo → Option GoError × W
  /-- The callee `(*govmomi.Client).LoginExtensionByCertificate`; `none` is a nil error. -/
  LoginExtensionByCertificate : W → Client → String → String → Option GoError × W
  /-- The callee `(*find.Finder).DatacenterOrDefault`. -/
  DatacenterOrDefault : W → Finder → String → Except GoError Datacenter × W
  /-- The callee `(*find.Finder).ComputeResourceOrDefault`. -/
  ComputeResourceOrDefault : W → Finder → String → Except GoError ComputeResource × W
  /-- The callee `(*find.Finder).DatastoreOrDefault`. -/
  DatastoreOrDefault : W → Finder → String → Except GoError Datastore × W
  /-- The callee `(*find.Finder).HostSystemOrDefault`. -/
  HostSystemOrDefault : W → Finder → String → Except GoError HostSystem × W
  /-- The callee `(*find.Finder).NetworkOrDefault`. -/
  NetworkOrDefault : W → Finder → String → Except GoError NetworkReference × W
  /-- The callee `(*find.Finder).ResourcePoolOrDefault`. -/
  ResourcePoolOrDefault : W → Finder → String → Except GoError ResourcePool × W

deriving instance DecidableEq for Except

/-- A call made by `Create`, with its arguments and its result. -/
inductive Call
  | ParseURL (s : String) (r : Except GoError (Option URL))
  | NewClient (u : URL) (insecure : Bool) (r : Except GoError Client)
  | LoadX509KeyPair (certFile keyFile : String) (r : Except GoError Certificate)
  | NewClientWithCertificate (u : URL) (insecure : Bool) (cert : Certificate)
      (r : Except GoError Client)
  | KeepAlive (rt : RoundTripper) (idleTime : Duration) (r : RoundTripper)
  | Login (c : Client) (u : Option Userinfo) (r : Option GoError)
  | LoginExtensionByCertificate (c : Client) (key locale : String) (r : Option GoError)
  | DatacenterOrDefault (f : Finder) (path : String) (r : Except GoError Datacenter)
  | SetDatacenter (f : Finder) (dc : Datacenter)
  | ComputeResourceOrDefault (f : Finder) (path : String) (r : Except GoError ComputeResource)
  | DatastoreOrDefault (f : Finder) (path : String) (r : Except GoError Datastore)
  | HostSystemOrDefault (f : Finder) (path : String) (r : Except GoError HostSystem)
  | NetworkOrDefault (f : Finder) (path : String) (r : Except GoError NetworkReference)
  | ResourcePoolOrDefault (f : Finder) (path : String) (r : Except GoError ResourcePool)
  deriving DecidableEq

/-- The callee of a call. -/
inductive Op
  | ParseURL | NewClient | LoadX509KeyPair | NewClientWithCertificate | KeepAlive
  | Login | LoginExtensionByCertificate
  | DatacenterOrDefault | SetDatacenter
  | ComputeResourceOrDefault | DatastoreOrDefault | HostSystemOrDefault
  | NetworkOrDefault | ResourcePoolOrDefault
  deriving DecidableEq, Repr

/-- The callee of a recorded call. -/
def Call.op : Call → Op
  | .ParseURL .. => .ParseURL
  | .NewClient .. => .NewClient
  | .LoadX509KeyPair .. => .LoadX509KeyPair
  | .NewClientWithCertificate .. => .NewClientWithCertificate
  | .KeepAlive .. => .KeepAlive
  | .Login .. => .Login
  | .LoginExtensionByCertificate .. => .LoginExtensionByCertificate
  | .DatacenterOrDefault .. => .DatacenterOrDefault
  | .SetDatacenter .. => .SetDatacenter
  | .ComputeResourceOrDefault .. => .ComputeResourceOrDefault
  | .DatastoreOrDefault .. => .DatastoreOrDefault
  | .HostSystemOrDefault .. => .HostSystemOrDefault
  | .NetworkOrDefault .. => .NetworkOrDefault
  | .ResourcePoolOrDefault .. => .ResourcePoolOrDefault

/-- The connection a connect call returned, if it is one and it succeeded. -/
def Call.connected : Call → Option Client
  | .NewClient _ _ (.ok c) => some c
  | .NewClientWithCertificate _ _ _ (.ok c) => some c
  | _ => none

/-- The resolver a resolution call was made on. -/
def Call.finder : Call → Option Finder
  | .DatacenterOrDefault f .. => some f
  | .SetDatacenter f _ => some f
  | .ComputeResourceOrDefault f .. => some f
  | .DatastoreOrDefault f .. => some f
  | .HostSystemOrDefault f .. => some f
  | .NetworkOrDefault f .. => some f
  | .ResourcePoolOrDefault f .. => some f
  | _ => none

/-- A recorded call and the world state after it. -/
structure Event (W : Type) where
  call : Call
  after : W
  deriving DecidableEq

/-- What a call of `Create` comes to. -/
inductive Outcome
  /-- The return of `s, nil`. -/
  | ok (s : Session)
  /-- The return of `nil, err`. -/
  | error (err : GoError)
  /-- A run-time failure on dereferencing a nil pointer; nothing is returned. -/
  | nilDeref
  deriving DecidableEq, Repr

/-- An execution of `Create`: its outcome and the calls it made, in order. -/
structure Run (W : Type) where
  out : Outcome
  trace : List (Event W)

/-- The callees of a run, in call order. -/
def Run.ops {W : Type} (r : Run W) : List Op := r.trace.map (fun ev => ev.call.op)

/-- Create accepts a Config and returns a Session with the cached vSphere
resources (`session.go`, lines 78 to 169). -/
def Create {W : Type} (env : Collab W) (config : Config) (w0 : W) : Run W :=
  -- s := &Session{}
  let s : Session := {}
  -- soapURL, err := soap.ParseURL(config.Service)
  let parsed := env.ParseURL config.Service
  let t1 : List (Event W) := [⟨.ParseURL config.Service parsed, w0⟩]
  match parsed with
  | .error err =>
    ⟨.error (Errorf ("SDK URL (" ++ config.Service ++ ") could not be parsed: " ++ err.Error)),
      t1⟩
  | .ok none =>
    -- soapURL.User on a nil *url.URL
    ⟨.nilDeref, t1⟩
  | .ok (some parsedURL) =>
    -- user = soapURL.User; soapURL.User = nil
    let user := parsedURL.User
    let soapURL : URL := { parsedURL with User := none }
    -- s.Client, err = govmomi.NewClient(ctx, soapURL, config.Insecure)
    let c1 := env.NewClient w0 soapURL config.Insecure
    let t2 := t1 ++ [⟨.NewClient soapURL config.Insecure c1.1, c1.2⟩]
    match c1.1 with
    | .error err =>
      ⟨.error (Errorf ("Failed to connect to " ++ env.URLString soapURL ++ ": " ++ err.Error)),
        t2⟩
    | .ok baseline =>
      -- if config.HasCertificate() { ... }: an early return, or the client to go on with
      let hc1 := config.HasCertificate
      let config := hc1.2
      let upgraded : Except GoError Client × List (Event W) × W :=
        if hc1.1 then
          if !baseline.IsVC then
            (.error (Errorf "Certificate based authentication not yet supported with ESXi"),
              t2, c1.2)
          else
            -- cert, err2 := tls.LoadX509KeyPair(config.CertFile, config.KeyFile)
            let l := env.LoadX509KeyPair c1.2 config.CertFile config.KeyFile
            let t3 := t2 ++ [⟨.LoadX509KeyPair config.CertFile config.KeyFile l.1, l.2⟩]
            match l.1 with
            | .error err2 =>
              (.error (Errorf ("Unable to load X509 key pair(" ++ config.CertFile ++ ","
                  ++ config.KeyFile ++ "): " ++ err2.Error)), t3, l.2)
            | .ok cert =>
              -- s.Client, err = govmomi.NewClientWithCertificate(ctx, soapURL, config.Insecure, cert)
              let c2 := env.NewClientWithCertificate l.2 soapURL config.Insecure cert
              let t4 := t3 ++ [⟨.NewClientWithCertificate soapURL config.Insecure cert c2.1, c2.2⟩]
              match c2.1 with
              | .error err =>
                (.error (Errorf ("Failed to connect to " ++ env.URLString soapURL ++ ": "
                    ++ err.Error)), t4, c2.2)
              | .ok withCert => (.ok withCert, t4, c2.2)
        else (.ok baseline, t2, c1.2)
      match upgraded with
      | (.error err, t, _) => ⟨.error err, t⟩
      | (.ok connected, t4, w4) =>
        -- if config.Keepalive != 0 { s.RoundTripper = session.KeepAlive(s.RoundTripper, config.Keepalive) }
        let wired : Client × List (Event W) :=
          if config.Keepalive != 0 then
            let rt := env.KeepAlive connected.RoundTripper config.Keepalive
            ({ connected with RoundTripper := rt },
              t4 ++ [⟨.KeepAlive connected.RoundTripper config.Keepalive rt, w4⟩])
          else (connected, t4)
        let client := wired.1
        let t5 := wired.2
        let s : Session := { s with Client := some client }
        -- if !config.HasCertificate() { err = s.Login(ctx, user) }
        -- else { err = s.LoginExtensionByCertificate(ctx, user.Username(), "") }
        let hc2 := config.HasCertificate
        let config := hc2.2
        let lg : Option GoError × List (Event W) × W :=
          if !hc2.1 then
            let r := env.Login w4 client user
            (r.1, t5 ++ [⟨.Login client user r.1, r.2⟩], r.2)
          else
            let r := env.LoginExtensionByCertificate w4 client (Userinfo.Username user) ""
            (r.1, t5 ++ [⟨.LoginExtensionByCertificate client (Userinfo.Username user) "" r.1,
              r.2⟩], r.2)
        match lg with
        | (some err, t, _) =>
          ⟨.error (Errorf ("Failed to log in to " ++ env.URLString soapURL ++ ": " ++ err.Error)),
            t⟩
        | (none, t6, w6) =>
          -- finder := find.NewFinder(s.Client.Client, true)
          let finder := NewFinder client true
          -- s.Datacenter, err = finder.DatacenterOrDefault(ctx, config.Datacenter)
          let d := env.DatacenterOrDefault w6 finder config.Datacenter
          let t7 := t6 ++ [⟨.DatacenterOrDefault finder config.Datacenter d.1, d.2⟩]
          match d.1 with
          | .error err => ⟨.error err, t7⟩
          | .ok datacenter =>
            let s := { s with Datacenter := some datacenter }
            -- finder.SetDatacenter(s.Datacenter)
            let t8 := t7 ++ [⟨.SetDatacenter finder datacenter, d.2⟩]
            let finder := finder.SetDatacenter datacenter
            -- s.Cluster, err = finder.ComputeResourceOrDefault(ctx, config.Cluster)
            let c := env.ComputeResourceOrDefault d.2 finder config.Cluster
            let t9 := t8 ++ [⟨.ComputeResourceOrDefault finder config.Cluster c.1, c.2⟩]
            match c.1 with
            | .error err => ⟨.error err, t9⟩
            | .ok cluster =>
              let s := { s with Cluster := some cluster }
              -- s.Datastore, err = finder.DatastoreOrDefault(ctx, config.Datastore)
              let ds := env.DatastoreOrDefault c.2 finder config.Datastore
              let t10 := t9 ++ [⟨.DatastoreOrDefault finder config.Datastore ds.1, ds.2⟩]
              match ds.1 with
              | .error err => ⟨.error err, t10⟩
              | .ok datastore =>
                let s := { s with Datastore := some datastore }
                -- s.Host, err = finder.HostSystemOrDefault(ctx, config.Host)
                let h := env.HostSystemOrDefault ds.2 finder config.Host
                let t11 := t10 ++ [⟨.HostSystemOrDefault finder config.Host h.1, h.2⟩]
                -- if err != nil { if _, ok := err.(*find.DefaultMultipleFoundError);
                --   !ok || !s.IsVC() { return nil, err } }
                let host : Except GoError (Option HostSystem) :=
                  match h.1 with
                  | .error err =>
                    if !err.isDefaultMultipleFound || !client.IsVC then .error err
                    else .ok none
                  | .ok hs => .ok (some hs)
                match host with
                | .error err => ⟨.error err, t11⟩
                | .ok hostRef =>
                  let s := { s with Host := hostRef }
                  -- s.Network, err = finder.NetworkOrDefault(ctx, config.Network)
                  let n := env.NetworkOrDefault h.2 finder config.Network
                  let t12 := t11 ++ [⟨.NetworkOrDefault finder config.Network n.1, n.2⟩]
                  match n.1 with
                  | .error err => ⟨.error err, t12⟩
                  | .ok network =>
                    let s := { s with Network := some network }
                    -- s.Pool, err = finder.ResourcePoolOrDefault(ctx, config.Pool)
                    let p := env.ResourcePoolOrDefault n.2 finder config.Pool
                    let t13 := t12 ++ [⟨.ResourcePoolOrDefault finder config.Pool p.1, p.2⟩]
                    match p.1 with
                    | .error err => ⟨.error err, t13⟩
                    | .ok pool =>
                      -- return s, nil
                      ⟨.ok { s with Pool := some pool }, t13⟩

/-! ## Decomposition of `Create`

The blocks of `Create` as functions of their own, each over the calls made so
far and the world state it starts in, and `Create.blocks`, which is `Create`
with these blocks folded.  `Create_eq_blocks` below shows that `Create` and
`Create.blocks` are equal by unfolding; the proofs run `Create` block by block. -/

/-- Lines 99 to 115 of `Create`, the certificate block, on the baseline
connection: an early return with an error, or the connection to go on with. -/
def Create.certificate {W : Type} (env : Collab W) (config : Config) (soapURL : URL)
    (baseline : Client) (t2 : List (Event W)) (w2 : W) :
    Except GoError Client × List (Event W) × W :=
  if config.HasCertificate.1 then
    if !baseline.IsVC then
      (.error (Errorf "Certificate based authentication not yet supported with ESXi"), t2, w2)
    else
      let l := env.LoadX509KeyPair w2 config.CertFile config.KeyFile
      let t3 := t2 ++ [⟨.LoadX509KeyPair config.CertFile config.KeyFile l.1, l.2⟩]
      match l.1 with
      | .error err2 =>
        (.error (Errorf ("Unable to load X509 key pair(" ++ config.CertFile ++ ","
            ++ config.KeyFile ++ "): " ++ err2.Error)), t3, l.2)
      | .ok cert =>
        let c2 := env.NewClientWithCertificate l.2 soapURL config.Insecure cert
        let t4 := t3 ++ [⟨.NewClientWithCertificate soapURL config.Insecure cert c2.1, c2.2⟩]
        match c2.1 with
        | .error err =>
          (.error (Errorf ("Failed to connect to " ++ env.URLString soapURL ++ ": "
              ++ err.Error)), t4, c2.2)
        | .ok withCert => (.ok withCert, t4, c2.2)
  else (.ok baseline, t2, w2)

/-- Lines 117 to 120 of `Create`, the keep-alive block. -/
def Create.keepalive {W : Type} (env : Collab W) (config : Config) (connected : Client)
    (t4 : List (Event W)) (w4 : W) : Client × List (Event W) :=
  if config.Keepalive != 0 then
    let rt := env.KeepAlive connected.RoundTripper config.Keepalive
    ({ connected with RoundTripper := rt },
      t4 ++ [⟨.KeepAlive connected.RoundTripper config.Keepalive rt, w4⟩])
  else (connected, t4)

/-- Lines 123 to 127 of `Create`, the login block. -/
def Create.login {W : Type} (env : Collab W) (config : Config) (user : Option Userinfo)
    (client : Client) (t5 : List (Event W)) (w4 : W) : Option GoError × List (Event W) × W :=
  if !config.HasCertificate.1 then
    let r := env.Login w4 client user
    (r.1, t5 ++ [⟨.Login client user r.1, r.2⟩], r.2)
  else
    let r := env.LoginExtensionByCertificate w4 client (Userinfo.Username user) ""
    (r.1, t5 ++ [⟨.LoginExtensionByCertificate client (Userinfo.Username user) "" r.1,
      r.2⟩], r.2)

/-- Lines 151 to 156 of `Create`, the host block: a fatal error, or the host
reference, nil when the failure is tolerated. -/
def Create.host (client : Client) (h : Except GoError HostSystem) :
    Except GoError (Option HostSystem) :=
  match h with
  | .error err =>
    if !err.isDefaultMultipleFound || !client.IsVC then .error err
    else .ok none
  | .ok hs => .ok (some hs)

/-- Lines 132 to 168 of `Create`: the resolutions, on the logged-in connection
`client`, after the calls `t6` and in the world `w6`. -/
def Create.populate {W : Type} (env : Collab W) (config : Config) (client : Client)
    (t6 : List (Event W)) (w6 : W) : Run W :=
  let s : Session := { Client := some client }
  let finder := NewFinder client true
  let d := env.DatacenterOrDefault w6 finder config.Datacenter
  let t7 := t6 ++ [⟨.DatacenterOrDefault finder config.Datacenter d.1, d.2⟩]
  match d.1 with
  | .error err => ⟨.error err, t7⟩
  | .ok datacenter =>
    let s := { s with Datacenter := some datacenter }
    let t8 := t7 ++ [⟨.SetDatacenter finder datacenter, d.2⟩]
    let finder := finder.SetDatacenter datacenter
    let c := env.ComputeResourceOrDefault d.2 finder config.Cluster
    let t9 := t8 ++ [⟨.ComputeResourceOrDefault finder config.Cluster c.1, c.2⟩]
    match c.1 with
    | .error err => ⟨.error err, t9⟩
    | .ok cluster =>
      let s := { s with Cluster := some cluster }
      let ds := env.DatastoreOrDefault c.2 finder config.Datastore
      let t10 := t9 ++ [⟨.DatastoreOrDefault finder config.Datastore ds.1, ds.2⟩]
      match ds.1 with
      | .error err => ⟨.error err, t10⟩
      | .ok datastore =>
        let s := { s with Datastore := some datastore }
        let h := env.HostSystemOrDefault ds.2 finder config.Host
        let t11 := t10 ++ [⟨.HostSystemOrDefault finder config.Host h.1, h.2⟩]
        match Create.host client h.1 with
        | .error err => ⟨.error err, t11⟩
        | .ok hostRef =>
          let s := { s with Host := hostRef }
          let n := env.NetworkOrDefault h.2 finder config.Network
          let t12 := t11 ++ [⟨.NetworkOrDefault finder config.Network n.1, n.2⟩]
          match n.1 with
          | .error err => ⟨.error err, t12⟩
          | .ok network =>
            let s := { s with Network := some network }
            let p := env.ResourcePoolOrDefault n.2 finder config.Pool
            let t13 := t12 ++ [⟨.ResourcePoolOrDefault finder config.Pool p.1, p.2⟩]
            match p.1 with
            | .error err => ⟨.error err, t13⟩
            | .ok pool => ⟨.ok { s with Pool := some pool }, t13⟩

/-- The function `Create` with its blocks folded. -/
def Create.blocks {W : Type} (env : Collab W) (config : Config) (w0 : W) : Run W :=
  let parsed := env.ParseURL config.Service
  let t1 : List (Event W) := [⟨.ParseURL config.Service parsed, w0⟩]
  match parsed with
  | .error err =>
    ⟨.error (Errorf ("SDK URL (" ++ config.Service ++ ") could not be parsed: " ++ err.Error)),
      t1⟩
  | .ok none => ⟨.nilDeref, t1⟩
  | .ok (some parsedURL) =>
    let user := parsedURL.User
    let soapURL : URL := { parsedURL with User := none }
    let c1 := env.NewClient w0 soapURL config.Insecure
    let t2 := t1 ++ [⟨.NewClient soapURL config.Insecure c1.1, c1.2⟩]
    match c1.1 with
    | .error err =>
      ⟨.error (Errorf ("Failed to connect to " ++ env.URLString soapURL ++ ": " ++ err.Error)),
        t2⟩
    | .ok baseline =>
      match Create.certificate env config soapURL baseline t2 c1.2 with
      | (.error err, t, _) => ⟨.error err, t⟩
      | (.ok connected, t4, w4) =>
        let wired := Create.keepalive env config connected t4 w4
        match Create.login env config user wired.1 wired.2 w4 with
        | (some err, t, _) =>
          ⟨.error (Errorf ("Failed to log in to " ++ env.URLString soapURL ++ ": " ++ err.Error)),
            t⟩
        | (none, t6, w6) => Create.populate env config wired.1 t6 w6

/-- The callees of the connection phase: everything up to and including login. -/
def Op.connectPhase : List Op :=
  [.ParseURL, .NewClient, .LoadX509KeyPair, .NewClientWithCertificate, .KeepAlive,
    .Login, .LoginExtensionByCertificate]

/-- The five resolutions that are scoped to the resolver's working datacenter,
in the order of `Create`. -/
def Op.dependent : List Op :=
  [.ComputeResourceOrDefault, .DatastoreOrDefault, .HostSystemOrDefault,
    .NetworkOrDefault, .ResourcePoolOrDefault]

/-- The callees of the resolution phase. -/
def Op.resolution : List Op := [.DatacenterOrDefault, .SetDatacenter] ++ Op.dependent

/-- The text `t` has the text `s` in it. -/
def Contains (s t : String) : Prop := ∃ p q : String, t = p ++ s ++ q

/-! ## A scripted environment

Canned answers for every callee, over a world state that counts the remote and
file-system calls made so far.  It is used to run `Create` on concrete inputs. -/

/-- The answers of a scripted environment. -/
structure Script where
  parse : Except GoError (Option URL)
  baseline : Except GoError Client
  keyPair : Except GoError Certificate
  withCert : Except GoError Client
  login : Option GoError
  loginCert : Option GoError
  datacenter : Except GoError Datacenter
  cluster : Except GoError ComputeResource
  datastore : Except GoError Datastore
  host : Except GoError HostSystem
  network : Except GoError NetworkReference
  pool : Except GoError ResourcePool

/-- The environment that answers as the script says and counts its calls. -/
def Script.collab (sc : Script) : Collab Nat where
  ParseURL := fun _ => sc.parse
  URLString := fun u => u.Scheme ++ "://" ++ u.Host ++ u.Path
  NewClient := fun w _ _ => (sc.baseline, w + 1)
  LoadX509KeyPair := fun w _ _ => (sc.keyPair, w + 1)
  NewClientWithCertificate := fun w _ _ _ => (sc.withCert, w + 1)
  KeepAlive := fun rt _ => ⟨rt.handle + 100⟩
  Login := fun w _ _ => (sc.login, w + 1)
  LoginExtensionByCertificate := fun w _ _ _ => (sc.loginCert, w + 1)
  DatacenterOrDefault := fun w _ _ => (sc.datacenter, w + 1)
  ComputeResourceOrDefault := fun w _ _ => (sc.cluster, w + 1)
  DatastoreOrDefault := fun w _ _ => (sc.datastore, w + 1)
  HostSystemOrDefault := fun w _ _ => (sc.host, w + 1)
  NetworkOrDefault := fun w _ _ => (sc.network, w + 1)
  ResourcePoolOrDefault := fun w _ _ => (sc.pool, w + 1)

/-- A script in which every call succeeds, against a management server. -/
def Script.allGood : Script where
  parse := .ok (some ⟨"https", "", some ⟨"root", "pw", true⟩, "vc", "/sdk", "", ""⟩)
  baseline := .ok ⟨⟨1⟩, true⟩
  keyPair := .ok ⟨7⟩
  withCert := .ok ⟨⟨2⟩, true⟩
  login := none
  loginCert := none
  datacenter := .ok ⟨"dc"⟩
  cluster := .ok ⟨"cl"⟩
  datastore := .ok ⟨"ds"⟩
  host := .ok ⟨"hs"⟩
  network := .ok ⟨"nw"⟩
  pool := .ok ⟨"rp"⟩

/-- A configuration for password login without keep-alive. -/
def Config.password : Config where
  Service := "root:pw@vc"
  Insecure := true
  Keepalive := 0
  Cluster := ""
  Datacenter := ""
  Datastore := ""
  Host := ""
  Network := ""
  Pool := ""
  CertFile := ""
  KeyFile := ""

/-- A configuration for certificate login with keep-alive. -/
def Config.certificate : Config :=
  { Config.password with Keepalive := 30, CertFile := "c.pem", KeyFile := "k.pem" }

/-- A configuration with a key file and no certificate file. -/
def Config.keyOnly : Config := { Config.password with KeyFile := "k.pem" }

/-- The error of `find` for a default that matches several objects. -/
def GoError.ambiguousDefault : GoError :=
  ⟨.DefaultMultipleFoundError, "default host resolves to multiple instances, please specify"⟩

/-- The error of `find` for a default that matches nothing. -/
def GoError.noDefault : GoError := ⟨.DefaultNotFoundError, "no default datacenter found"⟩

/-- A script in which the default host is ambiguous, against a management server. -/
def Script.ambiguousHost : Script :=
  { Script.allGood with host := .error GoError.ambiguousDefault }

/-- A script in which the default host is ambiguous, against a single host. -/
def Script.ambiguousHostESX : Script :=
  { Script.ambiguousHost with baseline := .ok ⟨⟨1⟩, false⟩ }

/-- A script in which there is no default datacenter. -/
def Script.noDatacenter : Script :=
  { Script.allGood with datacenter := .error GoError.noDefault }

/-- A script in which the server is a single host. -/
def Script.esx : Script := { Script.allGood with baseline := .ok ⟨⟨1⟩, false⟩ }

/-- A script in which the key pair cannot be loaded. -/
def Script.noKeyPair : Script :=
  { Script.allGood with keyPair := .error ⟨.other, "open c.pem: no such file or directory"⟩ }

/-- A script in which the URL parser rejects its input. -/
def Script.badURL : Script :=
  { Script.allGood with parse := .error ⟨.other, "invalid URL escape"⟩ }

/-- The URL of the scripts, without its user-info. -/
def Script.soapURL : URL := ⟨"https", "", none, "vc", "/sdk", "", ""⟩

/-- The resolver of the scripts once bound to their datacenter, on the
baseline connection of a management server. -/
def Script.finder : Finder := ⟨⟨⟨1⟩, true⟩, true, some ⟨"dc"⟩⟩

/-- The resolver of the scripts once bound to their datacenter, on the
baseline connection of a single host. -/
def Script.finderESX : Finder := ⟨⟨⟨1⟩, false⟩, true, some ⟨"dc"⟩⟩

/-! ## Symbolic execution of `Create` -/

theorem Create_eq_blocks {W : Type} (env : Collab W) (config : Config) (w0 : W) :
    Create env config w0 = Create.blocks env config w0 := rfl

/-! ### The blocks, case by case -/

theorem certificate_password {W : Type} (env : Collab W) (config : Config) (u : URL)
    (b : Client) (t : List (Event W)) (w : W) (hc : config.HasCertificate.1 = false) :
    Create.certificate env config u b t w = (.ok b, t, w) := by
  simp [Create.certificate, hc]

theorem certificate_esx {W : Type} (env : Collab W) (config : Config) (u : URL)
    (b : Client) (t : List (Event W)) (w : W) (hc : config.HasCertificate.1 = true)
    (hvc : b.IsVC = false) :
    Create.certificate env config u b t w
      = (.error (Errorf "Certificate based authentication not yet supported with ESXi"), t, w) := by
  simp [Create.certificate, hc, hvc]

theorem certificate_load_error {W : Type} (env : Collab W) (config : Config) (u : URL)
    (b : Client) (t : List (Event W)) (w wl : W) (e : GoError)
    (hc : config.HasCertificate.1 = true) (hvc : b.IsVC = true)
    (hl : env.LoadX509KeyPair w config.CertFile config.KeyFile = (.error e, wl)) :
    Create.certificate env config u b t w
      = (.error (Errorf ("Unable to load X509 key pair(" ++ config.CertFile ++ ","
            ++ config.KeyFile ++ "): " ++ e.Error)),
          t ++ [⟨.LoadX509KeyPair config.CertFile config.KeyFile (.error e), wl⟩], wl) := by
  simp [Create.certificate, hc, hvc, hl]

theorem certificate_connect_error {W : Type} (env : Collab W) (config : Config) (u : URL)
    (b : Client) (t : List (Event W)) (w wl wn : W) (cert : Certificate) (e : GoError)
    (hc : config.HasCertificate.1 = true) (hvc : b.IsVC = true)
    (hl : env.LoadX509KeyPair w config.CertFile config.KeyFile = (.ok cert, wl))
    (hn : env.NewClientWithCertificate wl u config.Insecure cert = (.error e, wn)) :
    Create.certificate env config u b t w
      = (.error (Errorf ("Failed to connect to " ++ env.URLString u ++ ": " ++ e.Error)),
          t ++ [⟨.LoadX509KeyPair config.CertFile config.KeyFile (.ok cert), wl⟩]
            ++ [⟨.NewClientWithCertificate u config.Insecure cert (.error e), wn⟩], wn) := by
  simp [Create.certificate, hc, hvc, hl, hn]

theorem certificate_connected {W : Type} (env : Collab W) (config : Config) (u : URL)
    (b c : Client) (t : List (Event W)) (w wl wn : W) (cert : Certificate)
    (hc : config.HasCertificate.1 = true) (hvc : b.IsVC = true)
    (hl : env.LoadX509KeyPair w config.CertFile config.KeyFile = (.ok cert, wl))
    (hn : env.NewClientWithCertificate wl u config.Insecure cert = (.ok c, wn)) :
    Create.certificate env config u b t w
      = (.ok c,
          t ++ [⟨.LoadX509KeyPair config.CertFile config.KeyFile (.ok cert), wl⟩]
            ++ [⟨.NewClientWithCertificate u config.Insecure cert (.ok c), wn⟩], wn) := by
  simp [Create.certificate, hc, hvc, hl, hn]

theorem keepalive_zero {W : Type} (env : Collab W) (config : Config) (c : Client)
    (t : List (Event W)) (w : W) (hk : config.Keepalive = 0) :
    Create.keepalive env config c t w = (c, t) := by
  simp [Create.keepalive, hk]

theorem keepalive_nonzero {W : Type} (env : Collab W) (config : Config) (c : Client)
    (t : List (Event W)) (w : W) (hk : config.Keepalive ≠ 0) :
    Create.keepalive env config c t w
      = ({ c with RoundTripper := env.KeepAlive c.RoundTripper config.Keepalive },
          t ++ [⟨.KeepAlive c.RoundTripper config.Keepalive
            (env.KeepAlive c.RoundTripper config.Keepalive), w⟩]) := by
  simp [Create.keepalive, hk]

theorem login_password {W : Type} (env : Collab W) (config : Config) (user : Option Userinfo)
    (c : Client) (t : List (Event W)) (w : W) (hc : config.HasCertificate.1 = false) :
    Create.login env config user c t w
      = ((env.Login w c user).1,
          t ++ [⟨.Login c user (env.Login w c user).1, (env.Login w c user).2⟩],
          (env.Login w c user).2) := by
  simp [Create.login, hc]

theorem login_certificate {W : Type} (env : Collab W) (config : Config)
    (user : Option Userinfo) (c : Client) (t : List (Event W)) (w : W)
    (hc : config.HasCertificate.1 = true) :
    Create.login env config user c t w
      = ((env.LoginExtensionByCertificate w c (Userinfo.Username user) "").1,
          t ++ [⟨.LoginExtensionByCertificate c (Userinfo.Username user) ""
              (env.LoginExtensionByCertificate w c (Userinfo.Username user) "").1,
            (env.LoginExtensionByCertificate w c (Userinfo.Username user) "").2⟩],
          (env.LoginExtensionByCertificate w c (Userinfo.Username user) "").2) := by
  simp [Create.login, hc]

theorem forall_mem_snoc {α : Type} {P : α → Prop} {t : List α} {a : α}
    (ht : ∀ x ∈ t, P x) (ha : P a) : ∀ x ∈ t ++ [a], P x := by
  intro x hx
  rcases List.mem_append.1 hx with h | h
  · exact ht x h
  · rw [List.mem_singleton.1 h]; exact ha

theorem certificate_connectPhase {W : Type} (env : Collab W) (config : Config) (u : URL)
    (b : Client) (t : List (Event W)) (w : W)
    (ht : ∀ ev ∈ t, ev.call.op ∈ Op.connectPhase) :
    ∀ ev ∈ (Create.certificate env config u b t w).2.1, ev.call.op ∈ Op.connectPhase := by
  cases hc : config.HasCertificate.1
  · rw [certificate_password env config u b t w hc]; exact ht
  cases hvc : b.IsVC
  · rw [certificate_esx env config u b t w hc hvc]; exact ht
  rcases hl : env.LoadX509KeyPair w config.CertFile config.KeyFile with ⟨e | cert, wl⟩
  · rw [certificate_load_error env config u b t w wl e hc hvc hl]
    exact forall_mem_snoc ht (by simp [Call.op, Op.connectPhase])
  rcases hn : env.NewClientWithCertificate wl u config.Insecure cert with ⟨e | c, wn⟩
  · rw [certificate_connect_error env config u b t w wl wn cert e hc hvc hl hn]
    exact forall_mem_snoc (forall_mem_snoc ht (by simp [Call.op, Op.connectPhase]))
      (by simp [Call.op, Op.connectPhase])
  · rw [certificate_connected env config u b c t w wl wn cert hc hvc hl hn]
    exact forall_mem_snoc (forall_mem_snoc ht (by simp [Call.op, Op.connectPhase]))
      (by simp [Call.op, Op.connectPhase])

theorem keepalive_connectPhase {W : Type} (env : Collab W) (config : Config) (c : Client)
    (t : List (Event W)) (w : W) (ht : ∀ ev ∈ t, ev.call.op ∈ Op.connectPhase) :
    ∀ ev ∈ (Create.keepalive env config c t w).2, ev.call.op ∈ Op.connectPhase := by
  by_cases hk : config.Keepalive = 0
  · rw [keepalive_zero env config c t w hk]; exact ht
  · rw [keepalive_nonzero env config c t w hk]
    exact forall_mem_snoc ht (by simp [Call.op, Op.connectPhase])

theorem login_connectPhase {W : Type} (env : Collab W) (config : Config)
    (user : Option Userinfo) (c : Client) (t : List (Event W)) (w : W)
    (ht : ∀ ev ∈ t, ev.call.op ∈ Op.connectPhase) :
    ∀ ev ∈ (Create.login env config user c t w).2.1, ev.call.op ∈ Op.connectPhase := by
  cases hc : config.HasCertificate.1
  · rw [login_password env config user c t w hc]
    exact forall_mem_snoc ht (by simp [Call.op, Op.connectPhase])
  · rw [login_certificate env config user c t w hc]
    exact forall_mem_snoc ht (by simp [Call.op, Op.connectPhase])

/-- Every run of `Create` either returns early, without a session and having
made calls of the connection phase only, or is the run of the resolution block
after calls of the connection phase only. -/
theorem Create_phases {W : Type} (env : Collab W) (config : Config) (w0 : W) :
    ((∀ s, (Create env config w0).out ≠ .ok s) ∧
      ∀ ev ∈ (Create env config w0).trace, ev.call.op ∈ Op.connectPhase) ∨
    ∃ client t w, (∀ ev ∈ t, ev.call.op ∈ Op.connectPhase) ∧
      Create env config w0 = Create.populate env config client t w := by
  rw [Create_eq_blocks]
  unfold Create.blocks
  rcases hp : env.ParseURL config.Service with e | _ | u
  · left; simp [Call.op, Op.connectPhase]
  · left; simp [Call.op, Op.connectPhase]
  simp only []
  have ht1 : ∀ ev ∈ [(⟨.ParseURL config.Service (.ok (some u)), w0⟩ : Event W)],
      ev.call.op ∈ Op.connectPhase := by simp [Call.op, Op.connectPhase]
  generalize [(⟨.ParseURL config.Service (.ok (some u)), w0⟩ : Event W)] = t1 at ht1 ⊢
  rcases hb : env.NewClient w0 { u with User := none } config.Insecure with ⟨e | b, w1⟩
  · left
    exact ⟨by simp, forall_mem_snoc ht1 (by simp [Call.op, Op.connectPhase])⟩
  simp only []
  have ht2 := certificate_connectPhase env config { u with User := none } b _ w1
    (forall_mem_snoc ht1 (by simp [Call.op, Op.connectPhase] :
      (⟨.NewClient { u with User := none } config.Insecure (.ok b), w1⟩ : Event W).call.op
        ∈ Op.connectPhase))
  rcases hcert : Create.certificate env config { u with User := none } b
    (t1 ++ [⟨.NewClient { u with User := none } config.Insecure (.ok b), w1⟩]) w1
    with ⟨e | c, t4, w4⟩
  · left
    rw [hcert] at ht2
    simp only [hcert]
    exact ⟨by simp, ht2⟩
  rw [hcert] at ht2
  simp only [hcert]
  have ht5 := keepalive_connectPhase env config c t4 w4 ht2
  have ht6 := login_connectPhase env config u.User (Create.keepalive env config c t4 w4).1 _ w4 ht5
  rcases hlg : Create.login env config u.User (Create.keepalive env config c t4 w4).1
    (Create.keepalive env config c t4 w4).2 w4 with ⟨_ | e, t6, w6⟩
  · rw [hlg] at ht6
    simp only [hlg]
    right
    exact ⟨_, t6, w6, ht6, rfl⟩
  · rw [hlg] at ht6
    simp only [hlg]
    left
    exact ⟨by simp, ht6⟩

/-! ### The resolution block -/

theorem populate_append {W : Type} (env : Collab W) (config : Config)
    (client : Client) (t : List (Event W)) (w : W) :
    (Create.populate env config client t w).out = (Create.populate env config client [] w).out ∧
    (Create.populate env config client t w).trace
      = t ++ (Create.populate env config client [] w).trace := by
  rcases hd : env.DatacenterOrDefault w (NewFinder client true) config.Datacenter
    with ⟨e | dc, wd⟩
  · simp [Create.populate, hd]
  rcases hc : env.ComputeResourceOrDefault wd ((NewFinder client true).SetDatacenter dc)
    config.Cluster with ⟨e | cl, wc⟩
  · simp [Create.populate, hd, hc]
  rcases hs : env.DatastoreOrDefault wc ((NewFinder client true).SetDatacenter dc)
    config.Datastore with ⟨e | ds, ws⟩
  · simp [Create.populate, hd, hc, hs]
  rcases hh : env.HostSystemOrDefault ws ((NewFinder client true).SetDatacenter dc)
    config.Host with ⟨rh, wh⟩
  rcases hx : Create.host client rh with e | hostRef
  · simp [Create.populate, hd, hc, hs, hh, hx]
  rcases hn : env.NetworkOrDefault wh ((NewFinder client true).SetDatacenter dc)
    config.Network with ⟨e | nw, wn⟩
  · simp [Create.populate, hd, hc, hs, hh, hx, hn]
  rcases hp : env.ResourcePoolOrDefault wn ((NewFinder client true).SetDatacenter dc)
    config.Pool with ⟨e | rp, wp⟩
  · simp [Create.populate, hd, hc, hs, hh, hx, hn, hp]
  · simp [Create.populate, hd, hc, hs, hh, hx, hn, hp]

theorem connectPhase_call (c : Call) (h : c.op ∈ Op.connectPhase) :
    c.op ∉ Op.resolution ∧ c.finder = none := by
  cases c <;> simp_all [Call.op, Op.connectPhase, Op.resolution, Op.dependent, Call.finder]

theorem populate_datacenter_failure {W : Type} (env : Collab W) (config : Config)
    (client : Client) (w wf : W) (f : Finder) (path : String) (e : GoError)
    (h : ⟨.DatacenterOrDefault f path (.error e), wf⟩
      ∈ (Create.populate env config client [] w).trace) :
    (Create.populate env config client [] w).out = .error e ∧
      ∀ ev ∈ (Create.populate env config client [] w).trace,
        ev.call.op = .DatacenterOrDefault ∧ ∀ g, ev.call.finder = some g → g.dc = none := by
  revert h
  rcases hd : env.DatacenterOrDefault w (NewFinder client true) config.Datacenter
    with ⟨e | dc, wd⟩
  · simp only [Create.populate, hd]
    simp +contextual [Call.op, Call.finder, NewFinder]
  rcases hc : env.ComputeResourceOrDefault wd ((NewFinder client true).SetDatacenter dc)
    config.Cluster with ⟨e | cl, wc⟩
  · simp [Create.populate, hd, hc]
  rcases hs : env.DatastoreOrDefault wc ((NewFinder client true).SetDatacenter dc)
    config.Datastore with ⟨e | ds, ws⟩
  · simp [Create.populate, hd, hc, hs]
  rcases hh : env.HostSystemOrDefault ws ((NewFinder client true).SetDatacenter dc)
    config.Host with ⟨rh, wh⟩
  rcases hx : Create.host client rh with e | hostRef
  · simp [Create.populate, hd, hc, hs, hh, hx]
  rcases hn : env.NetworkOrDefault wh ((NewFinder client true).SetDatacenter dc)
    config.Network with ⟨e | nw, wn⟩
  · simp [Create.populate, hd, hc, hs, hh, hx, hn]
  rcases hp : env.ResourcePoolOrDefault wn ((NewFinder client true).SetDatacenter dc)
    config.Pool with ⟨e | rp, wp⟩
  · simp [Create.populate, hd, hc, hs, hh, hx, hn, hp]
  · simp [Create.populate, hd, hc, hs, hh, hx, hn, hp]

/-- Every run of `Create` either returns early, without a session and having
made calls of the connection phase only, or makes calls `t` of the connection
phase and goes on as the resolution block does. -/
theorem Create_split {W : Type} (env : Collab W) (config : Config) (w0 : W) :
    ((∀ s, (Create env config w0).out ≠ .ok s) ∧
      ∀ ev ∈ (Create env config w0).trace, ev.call.op ∈ Op.connectPhase) ∨
    ∃ client t w, (∀ ev ∈ t, ev.call.op ∈ Op.connectPhase) ∧
      (Create env config w0).out = (Create.populate env config client [] w).out ∧
      (Create env config w0).trace = t ++ (Create.populate env config client [] w).trace := by
  rcases Create_phases env config w0 with h | ⟨client, t, w, ht, heq⟩
  · exact Or.inl h
  · refine Or.inr ⟨client, t, w, ht, ?_⟩
    rw [heq]
    exact populate_append env config client t w

theorem not_mem_connectPhase {W : Type} {t : List (Event W)} {ev : Event W}
    (ht : ∀ x ∈ t, x.call.op ∈ Op.connectPhase) (h : ev.call.op ∉ Op.connectPhase) :
    ev ∉ t := fun hm => h (ht ev hm)

/-- C3: when the datacenter resolution of a run of `Create` fails with error
`e`, `Create` returns no session and exactly `e`; no call of the run binds the
resolver's datacenter or resolves cluster, datastore, host, network or pool, and
no resolver the run calls on has a working datacenter. -/
theorem Create_datacenter_failure {W : Type} (env : Collab W) (config : Config) (w0 wf : W)
    (f : Finder) (path : String) (e : GoError)
    (h : ⟨.DatacenterOrDefault f path (.error e), wf⟩ ∈ (Create env config w0).trace) :
    (Create env config w0).out = .error e ∧
      (∀ ev ∈ (Create env config w0).trace,
        ev.call.op ≠ .SetDatacenter ∧ ev.call.op ∉ Op.dependent ∧
        ∀ g, ev.call.finder = some g → g.dc = none) := by
  rcases Create_split env config w0 with ⟨_, hall⟩ | ⟨client, t, w, ht, hout, htr⟩
  · have := hall _ h
    simp [Call.op, Op.connectPhase] at this
  · rw [htr] at h
    rw [hout, htr]
    have hR := (List.mem_append.1 h).resolve_left
      (not_mem_connectPhase ht (by simp [Call.op, Op.connectPhase]))
    obtain ⟨h1, h2⟩ := populate_datacenter_failure env config client w wf f path e hR
    refine ⟨h1, fun ev hev => ?_⟩
    rcases List.mem_append.1 hev with h3 | h3
    · obtain ⟨h4, h5⟩ := connectPhase_call _ (ht _ h3)
      refine ⟨fun h6 => h4 (by simp [h6, Op.resolution]),
        fun h6 => h4 (by simp [Op.resolution, h6]), ?_⟩
      simp [h5]
    · obtain ⟨h4, h5⟩ := h2 ev h3
      exact ⟨by simp [h4], by simp [h4, Op.dependent], h5⟩

theorem host_fatal_iff (client : Client) (e e1 : GoError) :
    Create.host client (.error e) = .error e1
      ↔ e1 = e ∧ ¬ (e.isDefaultMultipleFound = true ∧ client.IsVC = true) := by
  cases h1 : e.isDefaultMultipleFound <;> cases h2 : client.IsVC <;>
    simp [Create.host, h1, h2, eq_comm]

theorem host_tolerated_iff (client : Client) (e : GoError) (r : Option HostSystem) :
    Create.host client (.error e) = .ok r
      ↔ r = none ∧ e.isDefaultMultipleFound = true ∧ client.IsVC = true := by
  cases h1 : e.isDefaultMultipleFound <;> cases h2 : client.IsVC <;>
    simp [Create.host, h1, h2, eq_comm]

theorem populate_host_failure {W : Type} (env : Collab W) (config : Config)
    (client : Client) (w wh : W) (f : Finder) (path : String) (e : GoError)
    (h : ⟨.HostSystemOrDefault f path (.error e), wh⟩
      ∈ (Create.populate env config client [] w).trace) :
    f.client = client ∧
    ((e.isDefaultMultipleFound = true ∧ client.IsVC = true) →
      ∃ ev ∈ (Create.populate env config client [] w).trace, ev.call.op = .NetworkOrDefault) ∧
    (¬ (e.isDefaultMultipleFound = true ∧ client.IsVC = true) →
      (Create.populate env config client [] w).out = .error e ∧
      ∀ ev ∈ (Create.populate env config client [] w).trace,
        ev.call.op ≠ .NetworkOrDefault ∧ ev.call.op ≠ .ResourcePoolOrDefault) := by
  revert h
  rcases hd : env.DatacenterOrDefault w (NewFinder client true) config.Datacenter
    with ⟨e1 | dc, wd⟩
  · simp [Create.populate, hd]
  rcases hc : env.ComputeResourceOrDefault wd ((NewFinder client true).SetDatacenter dc)
    config.Cluster with ⟨e1 | cl, wc⟩
  · simp [Create.populate, hd, hc]
  rcases hs : env.DatastoreOrDefault wc ((NewFinder client true).SetDatacenter dc)
    config.Datastore with ⟨e1 | ds, ws⟩
  · simp [Create.populate, hd, hc, hs]
  rcases hh : env.HostSystemOrDefault ws ((NewFinder client true).SetDatacenter dc)
    config.Host with ⟨e2 | hsys, wh1⟩
  · rcases hx : Create.host client (.error e2) with e1 | hostRef
    · obtain ⟨rfl, hx2⟩ := (host_fatal_iff client e2 e1).1 hx
      simp only [Create.populate, hd, hc, hs, hh, hx]
      simp +contextual [Call.op, NewFinder, Finder.SetDatacenter, hx2]
    obtain ⟨rfl, hx2⟩ := (host_tolerated_iff client e2 hostRef).1 hx
    rcases hn : env.NetworkOrDefault wh1 ((NewFinder client true).SetDatacenter dc)
      config.Network with ⟨e1 | nw, wn⟩
    · simp only [Create.populate, hd, hc, hs, hh, hx, hn]
      simp +contextual [Call.op, NewFinder, Finder.SetDatacenter, hx2]
    rcases hp : env.ResourcePoolOrDefault wn ((NewFinder client true).SetDatacenter dc)
      config.Pool with ⟨e1 | rp, wp⟩
    · simp only [Create.populate, hd, hc, hs, hh, hx, hn, hp]
      simp +contextual [Call.op, NewFinder, Finder.SetDatacenter, hx2]
    · simp only [Create.populate, hd, hc, hs, hh, hx, hn, hp]
      simp +contextual [Call.op, NewFinder, Finder.SetDatacenter, hx2]
  · have hx : Create.host client (.ok hsys) = .ok (some hsys) := rfl
    rcases hn : env.NetworkOrDefault wh1 ((NewFinder client true).SetDatacenter dc)
      config.Network with ⟨e1 | nw, wn⟩
    · simp [Create.populate, hd, hc, hs, hh, hx, hn]
    rcases hp : env.ResourcePoolOrDefault wn ((NewFinder client true).SetDatacenter dc)
      config.Pool with ⟨e1 | rp, wp⟩
    · simp [Create.populate, hd, hc, hs, hh, hx, hn, hp]
    · simp [Create.populate, hd, hc, hs, hh, hx, hn, hp]

/-- C2: when the host resolution of a run of `Create` fails with error `e`, the
run goes on to resolve the network if and only if `e` is a
`*find.DefaultMultipleFoundError` and the connection is to a management server;
in every other case `Create` returns no session and `e` itself, and the run
resolves neither network nor pool. -/
theorem Create_host_failure {W : Type} (env : Collab W) (config : Config) (w0 wh : W)
    (f : Finder) (path : String) (e : GoError)
    (h : ⟨.HostSystemOrDefault f path (.error e), wh⟩ ∈ (Create env config w0).trace) :
    ((∃ ev ∈ (Create env config w0).trace, ev.call.op = .NetworkOrDefault)
      ↔ (e.isDefaultMultipleFound = true ∧ f.client.IsVC = true)) ∧
    (¬ (e.isDefaultMultipleFound = true ∧ f.client.IsVC = true) →
      (Create env config w0).out = .error e ∧
      ∀ ev ∈ (Create env config w0).trace,
        ev.call.op ≠ .NetworkOrDefault ∧ ev.call.op ≠ .ResourcePoolOrDefault) := by
  rcases Create_split env config w0 with ⟨_, hall⟩ | ⟨client, t, w, ht, hout, htr⟩
  · have := hall _ h
    simp [Call.op, Op.connectPhase] at this
  · rw [htr] at h
    rw [hout, htr]
    have hR := (List.mem_append.1 h).resolve_left
      (not_mem_connectPhase ht (by simp [Call.op, Op.connectPhase]))
    obtain ⟨hcl, h1, h2⟩ := populate_host_failure env config client w wh f path e hR
    rw [hcl]
    have h3 : ¬ (e.isDefaultMultipleFound = true ∧ client.IsVC = true) →
        (Create.populate env config client [] w).out = .error e ∧
        ∀ ev ∈ t ++ (Create.populate env config client [] w).trace,
          ev.call.op ≠ .NetworkOrDefault ∧ ev.call.op ≠ .ResourcePoolOrDefault := by
      intro hno
      obtain ⟨h4, h5⟩ := h2 hno
      refine ⟨h4, fun ev hev => ?_⟩
      rcases List.mem_append.1 hev with h6 | h6
      · obtain ⟨h7, _⟩ := connectPhase_call _ (ht _ h6)
        exact ⟨fun h8 => h7 (by simp [h8, Op.resolution, Op.dependent]),
          fun h8 => h7 (by simp [h8, Op.resolution, Op.dependent])⟩
      · exact h5 ev h6
    refine ⟨⟨fun ⟨ev, hev, hop⟩ => ?_, fun hyes => ?_⟩, h3⟩
    · by_contra hno
      exact ((h3 hno).2 ev hev).1 hop
    · obtain ⟨ev, hev, hop⟩ := h1 hyes
      exact ⟨ev, List.mem_append.2 (Or.inr hev), hop⟩

theorem populate_host_tolerated {W : Type} (env : Collab W) (config : Config)
    (client : Client) (w wh wn wp : W) (f : Finder) (path : String) (e : GoError)
    (n : NetworkReference) (p : ResourcePool)
    (h : ⟨.HostSystemOrDefault f path (.error e), wh⟩
      ∈ (Create.populate env config client [] w).trace)
    (hamb : e.isDefaultMultipleFound = true) (hvc : f.client.IsVC = true)
    (hnet : env.NetworkOrDefault wh f config.Network = (.ok n, wn))
    (hpool : env.ResourcePoolOrDefault wn f config.Pool = (.ok p, wp)) :
    ∃ (s : Session) (dc : Datacenter) (cl : ComputeResource) (ds : Datastore)
      (f0 : Finder) (wd wc ws : W),
      (Create.populate env config client [] w).out = .ok s ∧ s.Host = none ∧
      s.Datacenter = some dc ∧ s.Cluster = some cl ∧ s.Datastore = some ds ∧
      s.Network = some n ∧ s.Pool = some p ∧
      ⟨.DatacenterOrDefault f0 config.Datacenter (.ok dc), wd⟩
        ∈ (Create.populate env config client [] w).trace ∧
      ⟨.ComputeResourceOrDefault f config.Cluster (.ok cl), wc⟩
        ∈ (Create.populate env config client [] w).trace ∧
      ⟨.DatastoreOrDefault f config.Datastore (.ok ds), ws⟩
        ∈ (Create.populate env config client [] w).trace ∧
      ⟨.NetworkOrDefault f config.Network (.ok n), wn⟩
        ∈ (Create.populate env config client [] w).trace ∧
      ⟨.ResourcePoolOrDefault f config.Pool (.ok p), wp⟩
        ∈ (Create.populate env config client [] w).trace := by
  revert h
  rcases hd : env.DatacenterOrDefault w (NewFinder client true) config.Datacenter
    with ⟨e1 | dc, wd⟩
  · simp [Create.populate, hd]
  rcases hc : env.ComputeResourceOrDefault wd ((NewFinder client true).SetDatacenter dc)
    config.Cluster with ⟨e1 | cl, wc⟩
  · simp [Create.populate, hd, hc]
  rcases hs : env.DatastoreOrDefault wc ((NewFinder client true).SetDatacenter dc)
    config.Datastore with ⟨e1 | ds, ws⟩
  · simp [Create.populate, hd, hc, hs]
  rcases hh : env.HostSystemOrDefault ws ((NewFinder client true).SetDatacenter dc)
    config.Host with ⟨e2 | hsys, wh1⟩
  · rcases hx : Create.host client (.error e2) with e1 | hostRef
    · obtain ⟨rfl, hx2⟩ := (host_fatal_iff client e2 e1).1 hx
      simp only [Create.populate, hd, hc, hs, hh, hx]
      intro h
      simp at h
      obtain ⟨⟨rfl, -, rfl⟩, rfl⟩ := h
      exact absurd ⟨hamb, by simpa [NewFinder, Finder.SetDatacenter] using hvc⟩ hx2
    obtain ⟨rfl, hx2⟩ := (host_tolerated_iff client e2 hostRef).1 hx
    rcases hn : env.NetworkOrDefault wh1 ((NewFinder client true).SetDatacenter dc)
      config.Network with ⟨rn, wn1⟩
    rcases hp : env.ResourcePoolOrDefault wn1 ((NewFinder client true).SetDatacenter dc)
      config.Pool with ⟨rp, wp1⟩
    intro h
    have hf : f = (NewFinder client true).SetDatacenter dc ∧ wh = wh1 := by
      cases rn <;> cases rp <;> simp [Create.populate, hd, hc, hs, hh, hx, hn, hp] at h <;>
        simp [h]
    obtain ⟨rfl, rfl⟩ := hf
    rw [hn] at hnet
    obtain ⟨rfl, rfl⟩ := Prod.mk.inj hnet
    rw [hp] at hpool
    obtain ⟨rfl, rfl⟩ := Prod.mk.inj hpool
    refine ⟨⟨some client, some cl, some dc, some ds, none, some n, some p⟩, dc, cl, ds,
      NewFinder client true, wd, wc, ws, ?_⟩
    simp [Create.populate, hd, hc, hs, hh, hx, hn, hp]
  · have hx : Create.host client (.ok hsys) = .ok (some hsys) := rfl
    rcases hn : env.NetworkOrDefault wh1 ((NewFinder client true).SetDatacenter dc)
      config.Network with ⟨e1 | nw, wn1⟩
    · simp [Create.populate, hd, hc, hs, hh, hx, hn]
    rcases hp : env.ResourcePoolOrDefault wn1 ((NewFinder client true).SetDatacenter dc)
      config.Pool with ⟨e1 | rp, wp1⟩
    · simp [Create.populate, hd, hc, hs, hh, hx, hn, hp]
    · simp [Create.populate, hd, hc, hs, hh, hx, hn, hp]


/-- C1: when the host resolution of a run of `Create` fails with a
`*find.DefaultMultipleFoundError` on a connection to a management server, and
network and pool resolution succeed after it, `Create` returns a session and
no error; the session has no host reference, and its datacenter, cluster,
datastore, network and pool references are the values the resolver returned
in that run. -/
theorem Create_host_ambiguous_on_VC {W : Type} (env : Collab W) (config : Config)
    (w0 wh wn wp : W) (f : Finder) (path : String) (e : GoError)
    (n : NetworkReference) (p : ResourcePool)
    (h : ⟨.HostSystemOrDefault f path (.error e), wh⟩ ∈ (Create env config w0).trace)
    (hamb : e.isDefaultMultipleFound = true) (hvc : f.client.IsVC = true)
    (hnet : env.NetworkOrDefault wh f config.Network = (.ok n, wn))
    (hpool : env.ResourcePoolOrDefault wn f config.Pool = (.ok p, wp)) :
    ∃ (s : Session) (dc : Datacenter) (cl : ComputeResource) (ds : Datastore)
      (f0 : Finder) (wd wc ws : W),
      (Create env config w0).out = .ok s ∧ s.Host = none ∧
      s.Datacenter = some dc ∧ s.Cluster = some cl ∧ s.Datastore = some ds ∧
      s.Network = some n ∧ s.Pool = some p ∧
      ⟨.DatacenterOrDefault f0 config.Datacenter (.ok dc), wd⟩ ∈ (Create env config w0).trace ∧
      ⟨.ComputeResourceOrDefault f config.Cluster (.ok cl), wc⟩
        ∈ (Create env config w0).trace ∧
      ⟨.DatastoreOrDefault f config.Datastore (.ok ds), ws⟩ ∈ (Create env config w0).trace ∧
      ⟨.NetworkOrDefault f config.Network (.ok n), wn⟩ ∈ (Create env config w0).trace ∧
      ⟨.ResourcePoolOrDefault f config.Pool (.ok p), wp⟩ ∈ (Create env config w0).trace := by
  rcases Create_split env config w0 with ⟨_, hall⟩ | ⟨client, t, w, ht, hout, htr⟩
  · have := hall _ h
    simp [Call.op, Op.connectPhase] at this
  · rw [htr] at h
    rw [hout, htr]
    have hR := (List.mem_append.1 h).resolve_left
      (not_mem_connectPhase ht (by simp [Call.op, Op.connectPhase]))
    obtain ⟨s, dc, cl, ds, f0, wd, wc, ws, h1, h2, h3, h4, h5, h6, h7, m1, m2, m3, m4, m5⟩ :=
      populate_host_tolerated env config client w wh wn wp f path e n p hR hamb hvc hnet hpool
    exact ⟨s, dc, cl, ds, f0, wd, wc, ws, h1, h2, h3, h4, h5, h6, h7,
      List.mem_append.2 (Or.inr m1), List.mem_append.2 (Or.inr m2),
      List.mem_append.2 (Or.inr m3), List.mem_append.2 (Or.inr m4),
      List.mem_append.2 (Or.inr m5)⟩

theorem populate_order {W : Type} (env : Collab W) (config : Config) (client : Client) (w : W) :
    (∀ ev ∈ (Create.populate env config client [] w).trace,
      ev.call.op = .DatacenterOrDefault) ∨
    ∃ (dc : Datacenter) (wd : W) (deps : List (Event W)),
      (Create.populate env config client [] w).trace
        = [⟨.DatacenterOrDefault (NewFinder client true) config.Datacenter (.ok dc), wd⟩,
            ⟨.SetDatacenter (NewFinder client true) dc, wd⟩] ++ deps ∧
      (∀ ev ∈ deps, ev.call.finder = some ((NewFinder client true).SetDatacenter dc)) ∧
      deps.map (fun ev => ev.call.op) <+: Op.dependent := by
  rcases hd : env.DatacenterOrDefault w (NewFinder client true) config.Datacenter
    with ⟨e1 | dc, wd⟩
  · left
    simp [Create.populate, hd, Call.op]
  right
  rcases hc : env.ComputeResourceOrDefault wd ((NewFinder client true).SetDatacenter dc)
    config.Cluster with ⟨e1 | cl, wc⟩
  · simp only [Create.populate, hd, hc]
    exact ⟨dc, wd, _, rfl, by simp [Call.finder], by simp [Call.op, Op.dependent]⟩
  rcases hs : env.DatastoreOrDefault wc ((NewFinder client true).SetDatacenter dc)
    config.Datastore with ⟨e1 | ds, ws⟩
  · simp only [Create.populate, hd, hc, hs]
    exact ⟨dc, wd, _, rfl, by simp [Call.finder], by simp [Call.op, Op.dependent]⟩
  rcases hh : env.HostSystemOrDefault ws ((NewFinder client true).SetDatacenter dc)
    config.Host with ⟨rh, wh⟩
  rcases hx : Create.host client rh with e1 | hostRef
  · simp only [Create.populate, hd, hc, hs, hh, hx]
    exact ⟨dc, wd, _, rfl, by simp [Call.finder], by simp [Call.op, Op.dependent]⟩
  rcases hn : env.NetworkOrDefault wh ((NewFinder client true).SetDatacenter dc)
    config.Network with ⟨e1 | nw, wn⟩
  · simp only [Create.populate, hd, hc, hs, hh, hx, hn]
    exact ⟨dc, wd, _, rfl, by simp [Call.finder], by simp [Call.op, Op.dependent]⟩
  rcases hp : env.ResourcePoolOrDefault wn ((NewFinder client true).SetDatacenter dc)
    config.Pool with ⟨e1 | rp, wp⟩
  · simp only [Create.populate, hd, hc, hs, hh, hx, hn, hp]
    exact ⟨dc, wd, _, rfl, by simp [Call.finder], by simp [Call.op, Op.dependent]⟩
  · simp only [Create.populate, hd, hc, hs, hh, hx, hn, hp]
    exact ⟨dc, wd, _, rfl, by simp [Call.finder], by simp [Call.op, Op.dependent]⟩

/-- C4: in every run of `Create`, either no call binds the resolver's
datacenter or resolves cluster, datastore, host, network or pool, or the trace
is: calls that resolve nothing, then a datacenter resolution that succeeds with
`dc`, then the bind of the resolver to exactly `dc`, then dependent resolutions
only, all made on the resolver bound to `dc`, one at a time and in the order
cluster, datastore, host, network, pool. -/
theorem Create_resolution_order {W : Type} (env : Collab W) (config : Config) (w0 : W) :
    (∀ ev ∈ (Create env config w0).trace,
      ev.call.op ∉ Op.dependent ∧ ev.call.op ≠ .SetDatacenter) ∨
    ∃ (pre : List (Event W)) (f : Finder) (dc : Datacenter) (wd : W) (deps : List (Event W)),
      (Create env config w0).trace
        = pre ++ [⟨.DatacenterOrDefault f config.Datacenter (.ok dc), wd⟩,
            ⟨.SetDatacenter f dc, wd⟩] ++ deps ∧
      (∀ ev ∈ pre, ev.call.op ∉ Op.resolution) ∧
      (∀ ev ∈ deps, ev.call.finder = some (f.SetDatacenter dc)) ∧
      (f.SetDatacenter dc).dc = some dc ∧
      deps.map (fun ev => ev.call.op) <+: Op.dependent := by
  rcases Create_split env config w0 with ⟨_, hall⟩ | ⟨client, t, w, ht, _, htr⟩
  · left
    intro ev hev
    obtain ⟨h1, _⟩ := connectPhase_call _ (hall ev hev)
    exact ⟨fun h2 => h1 (by simp [Op.resolution, h2]),
      fun h2 => h1 (by simp [Op.resolution, h2])⟩
  · rcases populate_order env config client w with hdc | ⟨dc, wd, deps, h1, h2, h3⟩
    · left
      intro ev hev
      rw [htr] at hev
      rcases List.mem_append.1 hev with h4 | h4
      · obtain ⟨h5, _⟩ := connectPhase_call _ (ht ev h4)
        exact ⟨fun h6 => h5 (by simp [Op.resolution, h6]),
          fun h6 => h5 (by simp [Op.resolution, h6])⟩
      · simp [hdc ev h4, Op.dependent]
    · right
      refine ⟨t, NewFinder client true, dc, wd, deps, ?_, fun ev hev =>
        (connectPhase_call _ (ht ev hev)).1, h2, rfl, h3⟩
      rw [htr, h1, List.append_assoc]

/-! ### The connection phase -/

theorem populate_resolution {W : Type} (env : Collab W) (config : Config) (client : Client)
    (w : W) :
    ∀ ev ∈ (Create.populate env config client [] w).trace, ev.call.op ∈ Op.resolution := by
  rcases populate_order env config client w with h | ⟨dc, wd, deps, h1, _, h3⟩
  · intro ev hev
    simp [h ev hev, Op.resolution]
  · intro ev hev
    rw [h1] at hev
    rcases List.mem_append.1 hev with h4 | h4
    · have h5 : ev.call.op ∈ [Op.DatacenterOrDefault, Op.SetDatacenter] := by
        simp only [List.mem_cons, List.mem_singleton, List.not_mem_nil, or_false] at h4
        rcases h4 with rfl | rfl <;> simp [Call.op]
      exact List.mem_append.2 (Or.inl h5)
    · exact List.mem_append.2 (Or.inr (h3.subset (List.mem_map_of_mem _ h4)))

theorem populate_client {W : Type} (env : Collab W) (config : Config) (client : Client)
    (w : W) (s : Session) (h : (Create.populate env config client [] w).out = .ok s) :
    s.Client = some client := by
  revert h
  rcases hd : env.DatacenterOrDefault w (NewFinder client true) config.Datacenter
    with ⟨e | dc, wd⟩
  · simp [Create.populate, hd]
  rcases hc : env.ComputeResourceOrDefault wd ((NewFinder client true).SetDatacenter dc)
    config.Cluster with ⟨e | cl, wc⟩
  · simp [Create.populate, hd, hc]
  rcases hs : env.DatastoreOrDefault wc ((NewFinder client true).SetDatacenter dc)
    config.Datastore with ⟨e | ds, ws⟩
  · simp [Create.populate, hd, hc, hs]
  rcases hh : env.HostSystemOrDefault ws ((NewFinder client true).SetDatacenter dc)
    config.Host with ⟨rh, wh⟩
  rcases hx : Create.host client rh with e | hostRef
  · simp [Create.populate, hd, hc, hs, hh, hx]
  rcases hn : env.NetworkOrDefault wh ((NewFinder client true).SetDatacenter dc)
    config.Network with ⟨e | nw, wn⟩
  · simp [Create.populate, hd, hc, hs, hh, hx, hn]
  rcases hp : env.ResourcePoolOrDefault wn ((NewFinder client true).SetDatacenter dc)
    config.Pool with ⟨e | rp, wp⟩
  · simp [Create.populate, hd, hc, hs, hh, hx, hn, hp]
  · simp only [Create.populate, hd, hc, hs, hh, hx, hn, hp]
    intro h
    rw [← Outcome.ok.inj h]

/-- The run of `Create` once the certificate block has handed over the
connection `c`: keep-alive and login, with the calls `t6`, and then calls of
the resolution block only; a session is returned only if login succeeds, and
its connection is the one that went through the keep-alive block. -/
theorem Create_after_connect {W : Type} (env : Collab W) (config : Config) (w0 w1 w4 w6 : W)
    (u : URL) (b c : Client) (t4 t6 : List (Event W)) (r : Option GoError)
    (hparse : env.ParseURL config.Service = .ok (some u))
    (hconn : env.NewClient w0 { u with User := none } config.Insecure = (.ok b, w1))
    (hcert : Create.certificate env config { u with User := none } b
      [⟨.ParseURL config.Service (.ok (some u)), w0⟩,
        ⟨.NewClient { u with User := none } config.Insecure (.ok b), w1⟩] w1 = (.ok c, t4, w4))
    (hlg : Create.login env config u.User (Create.keepalive env config c t4 w4).1
      (Create.keepalive env config c t4 w4).2 w4 = (r, t6, w6)) :
    ∃ rest : List (Event W), (Create env config w0).trace = t6 ++ rest ∧
      (∀ ev ∈ rest, ev.call.op ∈ Op.resolution) ∧
      ∀ s, (Create env config w0).out = .ok s →
        r = none ∧ s.Client = some (Create.keepalive env config c t4 w4).1 := by
  rw [Create_eq_blocks]
  simp only [Create.blocks, hparse, hconn, List.singleton_append, hcert, hlg]
  cases r with
  | none =>
    refine ⟨_, (populate_append env config _ t6 w6).2, populate_resolution env config _ w6,
      fun s hs => ⟨rfl, ?_⟩⟩
    rw [(populate_append env config _ t6 w6).1] at hs
    exact populate_client env config _ w6 s hs
  | some e => exact ⟨[], by simp, by simp, by simp⟩

theorem keepalive_ops {W : Type} (env : Collab W) (config : Config) (c : Client)
    (t : List (Event W)) (w : W) :
    ∀ ev ∈ (Create.keepalive env config c t w).2, ev ∈ t ∨ ev.call.op = .KeepAlive := by
  by_cases hk : config.Keepalive = 0
  · rw [keepalive_zero env config c t w hk]
    exact fun ev hev => Or.inl hev
  · rw [keepalive_nonzero env config c t w hk]
    intro ev hev
    rcases List.mem_append.1 hev with h | h
    · exact Or.inl h
    · rw [List.mem_singleton.1 h]
      exact Or.inr rfl

theorem resolution_not_connectPhase (o : Op) (h : o ∈ Op.resolution) : o ∉ Op.connectPhase := by
  cases o <;> simp [Op.resolution, Op.dependent, Op.connectPhase] at h ⊢

/-- C5: a `Config` with exactly one of `CertFile` and `KeyFile` set has no
certificate, and `Create`, once the URL is parsed and the baseline connection
is open, logs in with `Login` and the user-info of the URL, and never loads a
key pair, reconnects with a certificate or logs in by certificate.  With both
set, once `Create` has parsed, connected, loaded the key pair and reconnected
with the certificate, it logs in with `LoginExtensionByCertificate` and the
username of the URL, and never with `Login`. -/
theorem Create_auth_mode {W : Type} (env : Collab W) (config : Config) (w0 : W) :
    (((config.CertFile = "" ∧ config.KeyFile ≠ "") ∨ (config.CertFile ≠ "" ∧ config.KeyFile = ""))
      → config.HasCertificate.1 = false ∧
        ∀ (u : URL) (b : Client) (w1 : W),
          env.ParseURL config.Service = .ok (some u) →
          env.NewClient w0 { u with User := none } config.Insecure = (.ok b, w1) →
          (∃ (client : Client) (r : Option GoError) (wl : W),
            ⟨.Login client u.User r, wl⟩ ∈ (Create env config w0).trace) ∧
          ∀ ev ∈ (Create env config w0).trace,
            ev.call.op ∉ [Op.LoadX509KeyPair, Op.NewClientWithCertificate,
              Op.LoginExtensionByCertificate]) ∧
    ((config.CertFile ≠ "" ∧ config.KeyFile ≠ "")
      → config.HasCertificate.1 = true ∧
        ∀ (u : URL) (b c : Client) (cert : Certificate) (w1 wl wn : W),
          env.ParseURL config.Service = .ok (some u) →
          env.NewClient w0 { u with User := none } config.Insecure = (.ok b, w1) →
          b.IsVC = true →
          env.LoadX509KeyPair w1 config.CertFile config.KeyFile = (.ok cert, wl) →
          env.NewClientWithCertificate wl { u with User := none } config.Insecure cert
            = (.ok c, wn) →
          (∃ (client : Client) (r : Option GoError) (wa : W),
            ⟨.LoginExtensionByCertificate client (Userinfo.Username u.User) "" r, wa⟩
              ∈ (Create env config w0).trace) ∧
          ∀ ev ∈ (Create env config w0).trace, ev.call.op ≠ Op.Login) := by
  constructor
  · intro hone
    have hc : config.HasCertificate.1 = false := by
      rcases hone with ⟨h1, _⟩ | ⟨_, h2⟩ <;> simp [Config.HasCertificate, *]
    refine ⟨hc, fun u b w1 hparse hconn => ?_⟩
    obtain ⟨rest, htr, hrest, -⟩ := Create_after_connect env config w0 w1 w1 _ u b b _ _ _
      hparse hconn (certificate_password env config _ b _ w1 hc)
      (login_password env config u.User _ _ w1 hc)
    rw [htr]
    refine ⟨⟨_, _, _, List.mem_append.2 (Or.inl (List.mem_append.2 (Or.inr
      (List.mem_singleton.2 rfl))))⟩, fun ev hev => ?_⟩
    rcases List.mem_append.1 hev with h | h
    · rcases List.mem_append.1 h with h | h
      · rcases keepalive_ops env config b _ w1 ev h with h | h
        · simp only [List.mem_cons, List.mem_singleton, List.not_mem_nil, or_false] at h
          rcases h with rfl | rfl <;> simp [Call.op]
        · simp [h]
      · rw [List.mem_singleton.1 h]
        simp [Call.op]
    · have := resolution_not_connectPhase _ (hrest ev h)
      intro h2
      apply this
      simp only [List.mem_cons, List.mem_singleton, List.not_mem_nil, or_false] at h2
      rcases h2 with h2 | h2 | h2 <;> simp [h2, Op.connectPhase]
  · intro hboth
    have hc : config.HasCertificate.1 = true := by
      simp [Config.HasCertificate, hboth.1, hboth.2]
    refine ⟨hc, fun u b c cert w1 wl wn hparse hconn hvc hload hconn2 => ?_⟩
    obtain ⟨rest, htr, hrest, -⟩ := Create_after_connect env config w0 w1 wn _ u b c _ _ _
      hparse hconn
      (certificate_connected env config _ b c _ w1 wl wn cert hc hvc hload hconn2)
      (login_certificate env config u.User _ _ wn hc)
    rw [htr]
    refine ⟨⟨_, _, _, List.mem_append.2 (Or.inl (List.mem_append.2 (Or.inr
      (List.mem_singleton.2 rfl))))⟩, fun ev hev => ?_⟩
    rcases List.mem_append.1 hev with h | h
    · rcases List.mem_append.1 h with h | h
      · rcases keepalive_ops env config c _ wn ev h with h | h
        · simp only [List.mem_cons, List.mem_singleton, List.not_mem_nil, or_false,
            List.mem_append, or_assoc] at h
          rcases h with rfl | rfl | rfl | rfl <;> simp [Call.op]
        · simp [h]
      · rw [List.mem_singleton.1 h]
        simp [Call.op]
    · have := resolution_not_connectPhase _ (hrest ev h)
      intro h2
      apply this
      simp [h2, Op.connectPhase]

theorem Create_certificate_error {W : Type} (env : Collab W) (config : Config) (w0 w1 w4 : W)
    (u : URL) (b : Client) (t4 : List (Event W)) (e : GoError)
    (hparse : env.ParseURL config.Service = .ok (some u))
    (hconn : env.NewClient w0 { u with User := none } config.Insecure = (.ok b, w1))
    (hcert : Create.certificate env config { u with User := none } b
      [⟨.ParseURL config.Service (.ok (some u)), w0⟩,
        ⟨.NewClient { u with User := none } config.Insecure (.ok b), w1⟩] w1
        = (.error e, t4, w4)) :
    Create env config w0 = ⟨.error e, t4⟩ := by
  rw [Create_eq_blocks]
  simp only [Create.blocks, hparse, hconn, List.singleton_append, hcert]

theorem login_shape {W : Type} (env : Collab W) (config : Config) (user : Option Userinfo)
    (c : Client) (t : List (Event W)) (w : W) :
    ∃ (lev : Event W) (r : Option GoError) (w6 : W),
      Create.login env config user c t w = (r, t ++ [lev], w6) ∧
      lev.call.op ∈ [Op.Login, Op.LoginExtensionByCertificate] := by
  cases hc : config.HasCertificate.1
  · exact ⟨_, _, _, login_password env config user c t w hc, by simp [Call.op]⟩
  · exact ⟨_, _, _, login_certificate env config user c t w hc, by simp [Call.op]⟩

theorem keepalive_shape {W : Type} (env : Collab W) (config : Config) (c : Client)
    (t : List (Event W)) (w : W) :
    Create.keepalive env config c t w
      = (⟨if config.Keepalive = 0 then c.RoundTripper
          else env.KeepAlive c.RoundTripper config.Keepalive, c.IsVC⟩,
        t ++ (if config.Keepalive = 0 then []
          else [⟨.KeepAlive c.RoundTripper config.Keepalive
            (env.KeepAlive c.RoundTripper config.Keepalive), w⟩])) := by
  by_cases hk : config.Keepalive = 0
  · rw [keepalive_zero env config c t w hk]; simp [hk]
  · rw [keepalive_nonzero env config c t w hk]; simp [hk]

/-- C10: when `Create` returns a session, its trace is: calls `pre` without
keep-alive, then the last connect call (`NewClientWithCertificate` if the
`Config` has a certificate, `NewClient` if not) returning a connection `c`,
then nothing if `Keepalive` is zero and one `KeepAlive` call on the transport
of `c` with the interval `Keepalive` if not, then the login call, then
resolutions only; the transport of the session's connection is the transport
of `c` if `Keepalive` is zero, and the result of that `KeepAlive` call if not. -/
theorem Create_transport {W : Type} (env : Collab W) (config : Config) (w0 : W) (s : Session)
    (hok : (Create env config w0).out = .ok s) :
    ∃ (pre post : List (Event W)) (connect login : Event W) (c : Client),
      (Create env config w0).trace
        = pre ++ [connect]
          ++ (if config.Keepalive = 0 then []
              else [⟨.KeepAlive c.RoundTripper config.Keepalive
                (env.KeepAlive c.RoundTripper config.Keepalive), connect.after⟩])
          ++ [login] ++ post ∧
      connect.call.connected = some c ∧
      connect.call.op
        = (if config.HasCertificate.1 then Op.NewClientWithCertificate else Op.NewClient) ∧
      (∀ ev ∈ pre, ev.call.op ∈ [Op.ParseURL, Op.NewClient, Op.LoadX509KeyPair]) ∧
      login.call.op ∈ [Op.Login, Op.LoginExtensionByCertificate] ∧
      (∀ ev ∈ post, ev.call.op ∈ Op.resolution) ∧
      s.Client = some ⟨if config.Keepalive = 0 then c.RoundTripper
        else env.KeepAlive c.RoundTripper config.Keepalive, c.IsVC⟩ := by
  rcases hp : env.ParseURL config.Service with e | _ | u
  · simp [Create, hp] at hok
  · simp [Create, hp] at hok
  rcases hb : env.NewClient w0 { u with User := none } config.Insecure with ⟨e | b, w1⟩
  · simp [Create, hp, hb] at hok
  cases hc : config.HasCertificate.1
  · obtain ⟨lev, r, w6, hlg, hlev⟩ := login_shape env config u.User
      (Create.keepalive env config b [⟨.ParseURL config.Service (.ok (some u)), w0⟩,
        ⟨.NewClient { u with User := none } config.Insecure (.ok b), w1⟩] w1).1
      (Create.keepalive env config b [⟨.ParseURL config.Service (.ok (some u)), w0⟩,
        ⟨.NewClient { u with User := none } config.Insecure (.ok b), w1⟩] w1).2 w1
    obtain ⟨rest, htr, hrest, hs⟩ := Create_after_connect env config w0 w1 w1 w6 u b b _ _ r
      hp hb (certificate_password env config _ b _ w1 hc) hlg
    obtain ⟨-, hcl⟩ := hs s hok
    rw [keepalive_shape] at htr hcl
    refine ⟨[⟨.ParseURL config.Service (.ok (some u)), w0⟩], rest,
      ⟨.NewClient { u with User := none } config.Insecure (.ok b), w1⟩, lev, b, ?_, rfl, ?_,
      ?_, hlev, hrest, hcl⟩
    · rw [htr]; simp
    · simp [Call.op]
    · simp [Call.op]
  cases hvc : b.IsVC
  · rw [Create_certificate_error env config w0 w1 w1 u b _ _ hp hb
      (certificate_esx env config _ b _ w1 hc hvc)] at hok
    simp at hok
  rcases hl : env.LoadX509KeyPair w1 config.CertFile config.KeyFile with ⟨e | cert, wl⟩
  · rw [Create_certificate_error env config w0 w1 wl u b _ _ hp hb
      (certificate_load_error env config _ b _ w1 wl e hc hvc hl)] at hok
    simp at hok
  rcases hn : env.NewClientWithCertificate wl { u with User := none } config.Insecure cert
    with ⟨e | c, wn⟩
  · rw [Create_certificate_error env config w0 w1 wn u b _ _ hp hb
      (certificate_connect_error env config _ b _ w1 wl wn cert e hc hvc hl hn)] at hok
    simp at hok
  obtain ⟨lev, r, w6, hlg, hlev⟩ := login_shape env config u.User
    (Create.keepalive env config c ([⟨.ParseURL config.Service (.ok (some u)), w0⟩,
      ⟨.NewClient { u with User := none } config.Insecure (.ok b), w1⟩]
      ++ [⟨.LoadX509KeyPair config.CertFile config.KeyFile (.ok cert), wl⟩]
      ++ [⟨.NewClientWithCertificate { u with User := none } config.Insecure cert (.ok c),
        wn⟩]) wn).1
    (Create.keepalive env config c ([⟨.ParseURL config.Service (.ok (some u)), w0⟩,
      ⟨.NewClient { u with User := none } config.Insecure (.ok b), w1⟩]
      ++ [⟨.LoadX509KeyPair config.CertFile config.KeyFile (.ok cert), wl⟩]
      ++ [⟨.NewClientWithCertificate { u with User := none } config.Insecure cert (.ok c),
        wn⟩]) wn).2 wn
  obtain ⟨rest, htr, hrest, hs⟩ := Create_after_connect env config w0 w1 wn w6 u b c _ _ r
    hp hb (certificate_connected env config _ b c _ w1 wl wn cert hc hvc hl hn) hlg
  obtain ⟨-, hcl⟩ := hs s hok
  rw [keepalive_shape] at htr hcl
  refine ⟨[⟨.ParseURL config.Service (.ok (some u)), w0⟩,
      ⟨.NewClient { u with User := none } config.Insecure (.ok b), w1⟩,
      ⟨.LoadX509KeyPair config.CertFile config.KeyFile (.ok cert), wl⟩], rest,
    ⟨.NewClientWithCertificate { u with User := none } config.Insecure cert (.ok c), wn⟩,
    lev, c, ?_, rfl, ?_, ?_, hlev, hrest, hcl⟩
  · rw [htr]; simp
  · simp [Call.op]
  · simp [Call.op]

/-! ### Early returns of the connection phase -/

/-- C8: when the URL parser rejects `Service`, `Create` returns no session and
an error whose text is built from `Service` and the parser's error text, and
has both in it; the parser call is the only call of the run. -/
theorem Create_invalid_endpoint {W : Type} (env : Collab W) (config : Config) (w0 : W)
    (perr : GoError) (hparse : env.ParseURL config.Service = .error perr) :
    ∃ e : GoError, (Create env config w0).out = .error e ∧
      e.Error = "SDK URL (" ++ config.Service ++ ") could not be parsed: " ++ perr.Error ∧
      Contains config.Service e.Error ∧ Contains perr.Error e.Error ∧
      (Create env config w0).ops = [Op.ParseURL] := by
  refine ⟨Errorf ("SDK URL (" ++ config.Service ++ ") could not be parsed: " ++ perr.Error),
    ?_, rfl, ⟨"SDK URL (", ") could not be parsed: " ++ perr.Error, ?_⟩,
    ⟨"SDK URL (" ++ config.Service ++ ") could not be parsed: ", "", ?_⟩, ?_⟩
  · simp [Create, hparse]
  · simp [Errorf, GoError.Error, String.append_assoc]
  · simp [Errorf, GoError.Error, String.append_assoc]
  · simp [Create, hparse, Run.ops, Call.op]

/-- C6: with a certificate in the `Config`, when the baseline connection opens
on a server that is not a management server, `Create` returns no session and
the error that certificate login is not supported there; parsing and the
baseline connect are the only calls of the run: no key pair is loaded, no
certificate connection opened, no keep-alive wired, no login made and nothing
resolved. -/
theorem Create_certificate_on_ESX {W : Type} (env : Collab W) (config : Config) (w0 w1 : W)
    (u : URL) (b : Client)
    (hcert : config.HasCertificate.1 = true)
    (hparse : env.ParseURL config.Service = .ok (some u))
    (hconn : env.NewClient w0 { u with User := none } config.Insecure = (.ok b, w1))
    (hesx : b.IsVC = false) :
    (Create env config w0).out
        = .error (Errorf "Certificate based authentication not yet supported with ESXi") ∧
      (Create env config w0).ops = [Op.ParseURL, Op.NewClient] := by
  rw [Create_certificate_error env config w0 w1 w1 u b _ _ hparse hconn
    (certificate_esx env config _ b _ w1 hcert hesx)]
  simp [Run.ops, Call.op]

/-- C7: with a certificate in the `Config`, when the baseline connection opens
on a management server and loading the key pair from `CertFile` and `KeyFile`
fails, `Create` returns no session and an error whose text is built from both
paths and the load error's text, and has the three in it; parsing, the baseline
connect and the load are the only calls of the run: no certificate connection
is opened, no login made and nothing resolved. -/
theorem Create_certificate_load_failure {W : Type} (env : Collab W) (config : Config)
    (w0 w1 wl : W) (u : URL) (b : Client) (lerr : GoError)
    (hcert : config.HasCertificate.1 = true)
    (hparse : env.ParseURL config.Service = .ok (some u))
    (hconn : env.NewClient w0 { u with User := none } config.Insecure = (.ok b, w1))
    (hvc : b.IsVC = true)
    (hload : env.LoadX509KeyPair w1 config.CertFile config.KeyFile = (.error lerr, wl)) :
    ∃ e : GoError, (Create env config w0).out = .error e ∧
      e.Error = "Unable to load X509 key pair(" ++ config.CertFile ++ "," ++ config.KeyFile
        ++ "): " ++ lerr.Error ∧
      Contains config.CertFile e.Error ∧ Contains config.KeyFile e.Error ∧
      Contains lerr.Error e.Error ∧
      (Create env config w0).ops = [Op.ParseURL, Op.NewClient, Op.LoadX509KeyPair] := by
  rw [Create_certificate_error env config w0 w1 wl u b _ _ hparse hconn
    (certificate_load_error env config _ b _ w1 wl lerr hcert hvc hload)]
  refine ⟨_, rfl, rfl, ⟨"Unable to load X509 key pair(",
      "," ++ config.KeyFile ++ "): " ++ lerr.Error, ?_⟩,
    ⟨"Unable to load X509 key pair(" ++ config.CertFile ++ ",", "): " ++ lerr.Error, ?_⟩,
    ⟨"Unable to load X509 key pair(" ++ config.CertFile ++ "," ++ config.KeyFile ++ "): ",
      "", ?_⟩, ?_⟩
  · simp [Errorf, GoError.Error, String.append_assoc]
  · simp [Errorf, GoError.Error, String.append_assoc]
  · simp [Errorf, GoError.Error, String.append_assoc]
  · simp [Run.ops, Call.op]

/-! ### The certificate predicate -/

/-- C9: `HasCertificate` returns true exactly when `CertFile` and `KeyFile` are
both non-empty; it leaves the `Config` as it is, and its result is the same for
any two values of `Config` that agree on these two fields. -/
theorem HasCertificate_iff (c : Config) :
    (c.HasCertificate.1 = true ↔ c.CertFile ≠ "" ∧ c.KeyFile ≠ "") ∧
    c.HasCertificate.2 = c ∧
    ∀ d : Config, d.CertFile = c.CertFile → d.KeyFile = c.KeyFile →
      d.HasCertificate.1 = c.HasCertificate.1 := by
  refine ⟨?_, rfl, ?_⟩
  · simp [Config.HasCertificate]
  · intro d h1 h2
    simp [Config.HasCertificate, h1, h2]

/-! ## The theorems at concrete inputs -/

theorem Create_host_ambiguous_on_VC_witness :
    ∃ (s : Session) (dc : Datacenter) (cl : ComputeResource) (ds : Datastore)
      (f0 : Finder) (wd wc ws : Nat),
      (Create Script.ambiguousHost.collab Config.password 0).out = .ok s ∧ s.Host = none ∧
      s.Datacenter = some dc ∧ s.Cluster = some cl ∧ s.Datastore = some ds ∧
      s.Network = some ⟨"nw"⟩ ∧ s.Pool = some ⟨"rp"⟩ ∧
      ⟨.DatacenterOrDefault f0 Config.password.Datacenter (.ok dc), wd⟩
        ∈ (Create Script.ambiguousHost.collab Config.password 0).trace ∧
      ⟨.ComputeResourceOrDefault Script.finder Config.password.Cluster (.ok cl), wc⟩
        ∈ (Create Script.ambiguousHost.collab Config.password 0).trace ∧
      ⟨.DatastoreOrDefault Script.finder Config.password.Datastore (.ok ds), ws⟩
        ∈ (Create Script.ambiguousHost.collab Config.password 0).trace ∧
      ⟨.NetworkOrDefault Script.finder Config.password.Network (.ok ⟨"nw"⟩), 7⟩
        ∈ (Create Script.ambiguousHost.collab Config.password 0).trace ∧
      ⟨.ResourcePoolOrDefault Script.finder Config.password.Pool (.ok ⟨"rp"⟩), 8⟩
        ∈ (Create Script.ambiguousHost.collab Config.password 0).trace :=
  Create_host_ambiguous_on_VC Script.ambiguousHost.collab Config.password 0 6 7 8
    Script.finder "" GoError.ambiguousDefault ⟨"nw"⟩ ⟨"rp"⟩
    (by decide) (by decide) (by decide) (by decide) (by decide)

theorem Create_host_failure_witness :
    ((∃ ev ∈ (Create Script.ambiguousHostESX.collab Config.password 0).trace,
        ev.call.op = .NetworkOrDefault)
      ↔ (GoError.ambiguousDefault.isDefaultMultipleFound = true
        ∧ Script.finderESX.client.IsVC = true)) ∧
    (¬ (GoError.ambiguousDefault.isDefaultMultipleFound = true
        ∧ Script.finderESX.client.IsVC = true) →
      (Create Script.ambiguousHostESX.collab Config.password 0).out
        = .error GoError.ambiguousDefault ∧
      ∀ ev ∈ (Create Script.ambiguousHostESX.collab Config.password 0).trace,
        ev.call.op ≠ .NetworkOrDefault ∧ ev.call.op ≠ .ResourcePoolOrDefault) :=
  Create_host_failure Script.ambiguousHostESX.collab Config.password 0 6
    Script.finderESX "" GoError.ambiguousDefault (by decide)

theorem Create_datacenter_failure_witness :
    (Create Script.noDatacenter.collab Config.password 0).out = .error GoError.noDefault ∧
      (∀ ev ∈ (Create Script.noDatacenter.collab Config.password 0).trace,
        ev.call.op ≠ .SetDatacenter ∧ ev.call.op ∉ Op.dependent ∧
        ∀ g, ev.call.finder = some g → g.dc = none) :=
  Create_datacenter_failure Script.noDatacenter.collab Config.password 0 3
    ⟨⟨⟨1⟩, true⟩, true, none⟩ "" GoError.noDefault (by decide)

theorem Create_auth_mode_witness :
    ((∃ (client : Client) (r : Option GoError) (wl : Nat),
        ⟨.Login client (some ⟨"root", "pw", true⟩) r, wl⟩
          ∈ (Create Script.allGood.collab Config.keyOnly 0).trace) ∧
      ∀ ev ∈ (Create Script.allGood.collab Config.keyOnly 0).trace,
        ev.call.op ∉ [Op.LoadX509KeyPair, Op.NewClientWithCertificate,
          Op.LoginExtensionByCertificate]) ∧
    ((∃ (client : Client) (r : Option GoError) (wa : Nat),
        ⟨.LoginExtensionByCertificate client "root" "" r, wa⟩
          ∈ (Create Script.allGood.collab Config.certificate 0).trace) ∧
      ∀ ev ∈ (Create Script.allGood.collab Config.certificate 0).trace,
        ev.call.op ≠ Op.Login) :=
  ⟨((Create_auth_mode Script.allGood.collab Config.keyOnly 0).1 (Or.inl (by decide))).2
      ⟨"https", "", some ⟨"root", "pw", true⟩, "vc", "/sdk", "", ""⟩ ⟨⟨1⟩, true⟩ 1
      (by decide) (by decide),
    ((Create_auth_mode Script.allGood.collab Config.certificate 0).2 (by decide)).2
      ⟨"https", "", some ⟨"root", "pw", true⟩, "vc", "/sdk", "", ""⟩ ⟨⟨1⟩, true⟩ ⟨⟨2⟩, true⟩
      ⟨7⟩ 1 2 3 (by decide) (by decide) (by decide) (by decide) (by decide)⟩

theorem Create_certificate_on_ESX_witness :
    (Create Script.esx.collab Config.certificate 0).out
        = .error (Errorf "Certificate based authentication not yet supported with ESXi") ∧
      (Create Script.esx.collab Config.certificate 0).ops = [Op.ParseURL, Op.NewClient] :=
  Create_certificate_on_ESX Script.esx.collab Config.certificate 0 1
    ⟨"https", "", some ⟨"root", "pw", true⟩, "vc", "/sdk", "", ""⟩ ⟨⟨1⟩, false⟩
    (by decide) (by decide) (by decide) (by decide)

theorem Create_certificate_load_failure_witness :
    ∃ e : GoError, (Create Script.noKeyPair.collab Config.certificate 0).out = .error e ∧
      e.Error = "Unable to load X509 key pair(" ++ Config.certificate.CertFile ++ ","
        ++ Config.certificate.KeyFile ++ "): "
        ++ GoError.Error ⟨.other, "open c.pem: no such file or directory"⟩ ∧
      Contains Config.certificate.CertFile e.Error ∧
      Contains Config.certificate.KeyFile e.Error ∧
      Contains (GoError.Error ⟨.other, "open c.pem: no such file or directory"⟩) e.Error ∧
      (Create Script.noKeyPair.collab Config.certificate 0).ops
        = [Op.ParseURL, Op.NewClient, Op.LoadX509KeyPair] :=
  Create_certificate_load_failure Script.noKeyPair.collab Config.certificate 0 1 2
    ⟨"https", "", some ⟨"root", "pw", true⟩, "vc", "/sdk", "", ""⟩ ⟨⟨1⟩, true⟩
    ⟨.other, "open c.pem: no such file or directory"⟩
    (by decide) (by decide) (by decide) (by decide) (by decide)

theorem Create_invalid_endpoint_witness :
    ∃ e : GoError, (Create Script.badURL.collab Config.password 0).out = .error e ∧
      e.Error = "SDK URL (" ++ Config.password.Service ++ ") could not be parsed: "
        ++ GoError.Error ⟨.other, "invalid URL escape"⟩ ∧
      Contains Config.password.Service e.Error ∧
      Contains (GoError.Error ⟨.other, "invalid URL escape"⟩) e.Error ∧
      (Create Script.badURL.collab Config.password 0).ops = [Op.ParseURL] :=
  Create_invalid_endpoint Script.badURL.collab Config.password 0
    ⟨.other, "invalid URL escape"⟩ (by decide)

theorem Create_transport_witness :
    ∃ (pre post : List (Event Nat)) (connect login : Event Nat) (c : Client),
      (Create Script.allGood.collab Config.certificate 0).trace
        = pre ++ [connect]
          ++ (if Config.certificate.Keepalive = 0 then []
              else [⟨.KeepAlive c.RoundTripper Config.certificate.Keepalive
                (Script.allGood.collab.KeepAlive c.RoundTripper Config.certificate.Keepalive),
                connect.after⟩])
          ++ [login] ++ post ∧
      connect.call.connected = some c ∧
      connect.call.op
        = (if Config.certificate.HasCertificate.1 then Op.NewClientWithCertificate
          else Op.NewClient) ∧
      (∀ ev ∈ pre, ev.call.op ∈ [Op.ParseURL, Op.NewClient, Op.LoadX509KeyPair]) ∧
      login.call.op ∈ [Op.Login, Op.LoginExtensionByCertificate] ∧
      (∀ ev ∈ post, ev.call.op ∈ Op.resolution) ∧
      (⟨some ⟨⟨102⟩, true⟩, some ⟨"cl"⟩, some ⟨"dc"⟩, some ⟨"ds"⟩, some ⟨"hs"⟩, some ⟨"nw"⟩,
          some ⟨"rp"⟩⟩ : Session).Client
        = some ⟨if Config.certificate.Keepalive = 0 then c.RoundTripper
          else Script.allGood.collab.KeepAlive c.RoundTripper Config.certificate.Keepalive,
          c.IsVC⟩ :=
  Create_transport Script.allGood.collab Config.certificate 0
    ⟨some ⟨⟨102⟩, true⟩, some ⟨"cl"⟩, some ⟨"dc"⟩, some ⟨"ds"⟩, some ⟨"hs"⟩, some ⟨"nw"⟩,
      some ⟨"rp"⟩⟩ (by decide)

end VSphereSession
